import Mathlib

/-!
# rangetest: HTTP byte-range conformance harness

A shallow embedding of `rangetest.go` and `testsuite.go`.

The harness talks to a target server through the Go standard library
(`net/http`, `mime`, `mime/multipart`, `io`).  Those library calls are not part of
the repository; they are gathered in the record `Env` and every definition below is
parameterised by it.  The embedded asset `data.txt` is the parameter `sampleData`.

Go's `error` results are `Option Error` (`none` is `nil`).  A test function returns a
`Result`: either it returns normally with a value and the new `World`, or the process
has terminated (`os.Exit`, or a run-time panic such as a slice bound out of range,
which ends a Go process with status 2).
-/

set_option linter.dupNamespace false

namespace Rangetest

/-! ## Data model -/

/-- A Go `error` value: the sentinel `io.EOF`, or any other error with its message. -/
inductive Error where
  | EOF
  | msg (text : String)
  deriving DecidableEq, Repr

/-- The method `err.Error()`. -/
def Error.Error : Error → String
  | .EOF => "EOF"
  | .msg text => text

/-- `fmt.Errorf` with the format already expanded. -/
def Errorf (text : String) : Error := .msg text

/-- `http.Header` / `textproto.MIMEHeader`: canonical key to the list of its values. -/
structure Header where
  entries : List (String × List String)
  deriving DecidableEq, Repr

/-- `Header.Get`: the first value stored under the key, or the empty string. -/
def Header.Get (h : Header) (key : String) : String :=
  match h.entries.lookup key with
  | some (v :: _) => v
  | _ => ""

/-- `Header.Add`: append a value to the values stored under the key. -/
def Header.Add (h : Header) (key value : String) : Header :=
  match h.entries.lookup key with
  | some _ => ⟨h.entries.map (fun kv => if kv.1 = key then (kv.1, kv.2 ++ [value]) else kv)⟩
  | none => ⟨h.entries ++ [(key, [value])]⟩

/-- A readable stream: the bytes it delivers and the error that ends it, if any. -/
structure Body where
  data : List UInt8
  err : Option Error
  deriving DecidableEq, Repr

/-- `io.ReadAll`: all the bytes, or the stream's error. -/
def ReadAll (b : Body) : Except Error (List UInt8) :=
  match b.err with
  | none => .ok b.data
  | some e => .error e

/-- `http.Request` as far as the harness builds it (the body is always `nil`). -/
structure Request where
  Method : String
  URL : String
  Header : Header
  deriving DecidableEq, Repr

/-- `http.Response` as far as the harness reads it. -/
structure Response where
  StatusCode : Int
  ContentLength : Int
  Header : Header
  Body : Body
  deriving DecidableEq, Repr

/-- `multipart.Part`: the part's headers and its readable content. -/
structure Part where
  Header : Header
  Body : Body
  deriving DecidableEq, Repr

/-- `multipart.Reader`: the results the successive calls of `NextPart` will give; once
the list is used up `NextPart` gives `io.EOF`. -/
abbrev Reader := List (Except Error Part)

/-- The Go standard library and the target server, as the harness sees them. -/
structure Env where
  /-- the error `http.NewRequest` gives for this URL, if it does not parse -/
  parseURL : String → Option Error
  /-- `http.DefaultClient.Do`: the answer to a request, given the requests sent before -/
  respond : List Request → Request → Except Error Response
  /-- `mime.ParseMediaType`: media type and parameters -/
  ParseMediaType : String → Except Error (String × List (String × String))
  /-- `multipart.NewReader(body, boundary)` and the parts it decodes -/
  NewReader : Body → String → Reader

/-- What the process has done so far: requests sent, text written to the two streams. -/
structure World where
  requests : List Request
  stdout : String
  stderr : String
  deriving DecidableEq, Repr

/-- Outcome of running a piece of the program from a `World`. -/
inductive Result (α : Type) where
  | ok (val : α) (w : World)
  | exit (status : Nat) (w : World)
  deriving Repr

/-- `http.NewRequest(method, url, nil)` for a valid method. -/
def NewRequest (env : Env) (method url : String) : Except Error Request :=
  match env.parseURL url with
  | some err => .error err
  | none => .ok { Method := method, URL := url, Header := ⟨[]⟩ }

/-- `http.DefaultClient.Do(req)`: one round trip, recorded in the world. -/
def Do (env : Env) (req : Request) (w : World) : Except Error Response × World :=
  (env.respond w.requests req, { w with requests := w.requests ++ [req] })

/-- `s[lo:hi]` on a byte slice whose capacity is its length; `none` is the run-time
panic "slice bounds out of range". -/
def slice (s : List UInt8) (lo hi : Nat) : Option (List UInt8) :=
  if lo ≤ hi ∧ hi ≤ s.length then some ((s.drop lo).take (hi - lo)) else none

/-- `args[key]` on a Go `map[string]string`: the empty string when the key is absent. -/
def mapIndex (args : List (String × String)) (key : String) : String :=
  (args.lookup key).getD ""

/-! ## testsuite.go -/

def fail : String := "\x1b[31m[FAIL]\x1b[0m"
def pass : String := "\x1b[32m[PASS]\x1b[0m"

def testHEADRequest (env : Env) (sampleData : List UInt8) (url : String) (w : World) :
    Result (Option Error) :=
  match NewRequest env "HEAD" url with
  | .error err => .ok (some err) w
  | .ok req =>
    let req := { req with Header := req.Header.Add "User-Agent" "rangetest/1.0" }
    match Do env req w with
    | (.error err, w) => .ok (some err) w
    | (.ok resp, w) =>
      if resp.StatusCode ≠ 200 then
        .ok (some (Errorf ("unexpected HTTP status code. Expected 200 got "
          ++ toString resp.StatusCode))) w
      else if resp.ContentLength ≠ (sampleData.length : Int) then
        .ok (some (Errorf ("incorrect value of content length header. Expected "
          ++ toString sampleData.length ++ " got " ++ toString resp.ContentLength))) w
      else
        match env.ParseMediaType (resp.Header.Get "Content-Type") with
        | .error err => .ok (some err) w
        | .ok (ct, _) =>
          if ct ≠ "text/plain" then
            .ok (some (Errorf ("incorrect value of content typ header. Expected 'text/plain' got '"
              ++ ct ++ "'"))) w
          else if resp.Header.Get "Accept-Ranges" ≠ "bytes" then
            .ok (some (Errorf ("incorrect or missing Accept-Ranges header. Expected bytes got "
              ++ resp.Header.Get "Accept-Ranges"))) w
          else
            .ok none w

def testGetAllDataWithoutRange (env : Env) (sampleData : List UInt8) (url : String) (w : World) :
    Result (Option Error) :=
  match NewRequest env "GET" url with
  | .error err => .ok (some err) w
  | .ok req =>
    let req := { req with Header := req.Header.Add "User-Agent" "rangetest/1.0" }
    match Do env req w with
    | (.error err, w) => .ok (some err) w
    | (.ok resp, w) =>
      if resp.StatusCode ≠ 200 then
        .ok (some (Errorf ("unexpected HTTP status code. Expected 200 got "
          ++ toString resp.StatusCode))) w
      else if resp.ContentLength ≠ (sampleData.length : Int) then
        .ok (some (Errorf ("incorrect value of content length header. Expected "
          ++ toString sampleData.length ++ " got " ++ toString resp.ContentLength))) w
      else
        match env.ParseMediaType (resp.Header.Get "Content-Type") with
        | .error err => .ok (some err) w
        | .ok (ct, _) =>
          if ct ≠ "text/plain" then
            .ok (some (Errorf ("incorrect value of content typ header. Expected 'text/plain' got '"
              ++ ct ++ "'"))) w
          else
            match ReadAll resp.Body with
            | .error err => .ok (some err) w
            | .ok respData =>
              if respData.length ≠ sampleData.length then
                .ok (some (Errorf ("incorrect data length. Expected " ++ toString sampleData.length
                  ++ " got " ++ toString respData.length))) w
              else
                if respData ≠ sampleData then .ok (some (Errorf "invalid data returned")) w
                else .ok none w

def testGetAllDataWithRange (env : Env) (sampleData : List UInt8) (url : String) (w : World) :
    Result (Option Error) :=
  match NewRequest env "GET" url with
  | .error err => .ok (some err) w
  | .ok req =>
    let req := { req with Header := req.Header.Add "User-Agent" "rangetest/1.0" }
    let req := { req with Header := req.Header.Add "Range" "bytes=0-" }
    match Do env req w with
    | (.error err, w) => .ok (some err) w
    | (.ok resp, w) =>
      if resp.StatusCode ≠ 206 then
        .ok (some (Errorf ("unexpected HTTP status code. Expected 206 got "
          ++ toString resp.StatusCode))) w
      else if resp.ContentLength ≠ (sampleData.length : Int) then
        .ok (some (Errorf ("incorrect value of content length header. Expected "
          ++ toString sampleData.length ++ " got " ++ toString resp.ContentLength))) w
      else
        match env.ParseMediaType (resp.Header.Get "Content-Type") with
        | .error err => .ok (some err) w
        | .ok (ct, _) =>
          if ct ≠ "text/plain" then
            .ok (some (Errorf ("incorrect value of content typ header. Expected 'text/plain' got '"
              ++ ct ++ "'"))) w
          else if resp.Header.Get "Content-Range" ≠ "bytes 0-499/500" then
            .ok (some (Errorf ("incorrect or missing Accept-Ranges header. Expected 'bytes 0-499/500' got '"
              ++ resp.Header.Get "Content-Range" ++ "'"))) w
          else
            match ReadAll resp.Body with
            | .error err => .ok (some err) w
            | .ok respData =>
              if respData.length ≠ sampleData.length then
                .ok (some (Errorf ("incorrect data length. Expected " ++ toString sampleData.length
                  ++ " got " ++ toString respData.length))) w
              else
                if respData ≠ sampleData then .ok (some (Errorf "invalid data returned")) w
                else .ok none w

def testGetSingleAbsoluteRange (env : Env) (sampleData : List UInt8) (url : String) (w : World) :
    Result (Option Error) :=
  match NewRequest env "GET" url with
  | .error err => .ok (some err) w
  | .ok req =>
    let req := { req with Header := req.Header.Add "User-Agent" "rangetest/1.0" }
    let req := { req with Header := req.Header.Add "Range" "bytes=0-99" }
    match Do env req w with
    | (.error err, w) => .ok (some err) w
    | (.ok resp, w) =>
      if resp.StatusCode ≠ 206 then
        .ok (some (Errorf ("unexpected HTTP status code. Expected 206 got "
          ++ toString resp.StatusCode))) w
      else if resp.ContentLength ≠ 100 then
        .ok (some (Errorf ("incorrect value of content length header. Expected "
          ++ "100" ++ " got " ++ toString resp.ContentLength))) w
      else
        match env.ParseMediaType (resp.Header.Get "Content-Type") with
        | .error err => .ok (some err) w
        | .ok (ct, _) =>
          if ct ≠ "text/plain" then
            .ok (some (Errorf ("incorrect value of content typ header. Expected 'text/plain' got '"
              ++ ct ++ "'"))) w
          else if resp.Header.Get "Content-Range" ≠ "bytes 0-99/500" then
            .ok (some (Errorf ("incorrect or missing Accept-Ranges header. Expected 'bytes 0-99/500' got '"
              ++ resp.Header.Get "Content-Range" ++ "'"))) w
          else
            match ReadAll resp.Body with
            | .error err => .ok (some err) w
            | .ok respData =>
              if respData.length ≠ 100 then
                .ok (some (Errorf ("incorrect data length. Expected " ++ "100"
                  ++ " got " ++ toString respData.length))) w
              else
                match slice sampleData 0 100 with
                | none => .exit 2 w
                | some expected =>
                  if respData ≠ expected then .ok (some (Errorf "invalid data returned")) w
                  else .ok none w

def testGetSingleRelativeRangeStart (env : Env) (sampleData : List UInt8) (url : String) (w : World) :
    Result (Option Error) :=
  match NewRequest env "GET" url with
  | .error err => .ok (some err) w
  | .ok req =>
    let req := { req with Header := req.Header.Add "User-Agent" "rangetest/1.0" }
    let req := { req with Header := req.Header.Add "Range" "bytes=400-" }
    match Do env req w with
    | (.error err, w) => .ok (some err) w
    | (.ok resp, w) =>
      if resp.StatusCode ≠ 206 then
        .ok (some (Errorf ("unexpected HTTP status code. Expected 206 got "
          ++ toString resp.StatusCode))) w
      else if resp.ContentLength ≠ 100 then
        .ok (some (Errorf ("incorrect value of content length header. Expected "
          ++ "100" ++ " got " ++ toString resp.ContentLength))) w
      else
        match env.ParseMediaType (resp.Header.Get "Content-Type") with
        | .error err => .ok (some err) w
        | .ok (ct, _) =>
          if ct ≠ "text/plain" then
            .ok (some (Errorf ("incorrect value of content typ header. Expected 'text/plain' got '"
              ++ ct ++ "'"))) w
          else if resp.Header.Get "Content-Range" ≠ "bytes 400-499/500" then
            .ok (some (Errorf ("incorrect or missing Accept-Ranges header. Expected 'bytes 400-499/500' got '"
              ++ resp.Header.Get "Content-Range" ++ "'"))) w
          else
            match ReadAll resp.Body with
            | .error err => .ok (some err) w
            | .ok respData =>
              if respData.length ≠ 100 then
                .ok (some (Errorf ("incorrect data length. Expected " ++ "100"
                  ++ " got " ++ toString respData.length))) w
              else
                match slice sampleData 400 500 with
                | none => .exit 2 w
                | some expected =>
                  if respData ≠ expected then .ok (some (Errorf "invalid data returned")) w
                  else .ok none w

def testGetSingleRelativeRangeEnd (env : Env) (sampleData : List UInt8) (url : String) (w : World) :
    Result (Option Error) :=
  match NewRequest env "GET" url with
  | .error err => .ok (some err) w
  | .ok req =>
    let req := { req with Header := req.Header.Add "User-Agent" "rangetest/1.0" }
    let req := { req with Header := req.Header.Add "Range" "bytes=-100" }
    match Do env req w with
    | (.error err, w) => .ok (some err) w
    | (.ok resp, w) =>
      if resp.StatusCode ≠ 206 then
        .ok (some (Errorf ("unexpected HTTP status code. Expected 206 got "
          ++ toString resp.StatusCode))) w
      else if resp.ContentLength ≠ 100 then
        .ok (some (Errorf ("incorrect value of content length header. Expected "
          ++ "100" ++ " got " ++ toString resp.ContentLength))) w
      else
        match env.ParseMediaType (resp.Header.Get "Content-Type") with
        | .error err => .ok (some err) w
        | .ok (ct, _) =>
          if ct ≠ "text/plain" then
            .ok (some (Errorf ("incorrect value of content typ header. Expected 'text/plain' got '"
              ++ ct ++ "'"))) w
          else if resp.Header.Get "Content-Range" ≠ "bytes 400-499/500" then
            .ok (some (Errorf ("incorrect or missing Accept-Ranges header. Expected 'bytes 400-499/500' got '"
              ++ resp.Header.Get "Content-Range" ++ "'"))) w
          else
            match ReadAll resp.Body with
            | .error err => .ok (some err) w
            | .ok respData =>
              if respData.length ≠ 100 then
                .ok (some (Errorf ("incorrect data length. Expected " ++ "100"
                  ++ " got " ++ toString respData.length))) w
              else
                match slice sampleData 400 500 with
                | none => .exit 2 w
                | some expected =>
                  if respData ≠ expected then .ok (some (Errorf "invalid data returned")) w
                  else .ok none w

/-- The `for` loop over `mpReader.NextPart()` (testsuite.go 367-398 and, with the same
text, 444-475), from the state the loop is in: the reader and `partIdx`.  The three
tables are the locals `expectedContentRangeHeaders`, `expectedData` and
`expectedNumberOfParts` of the enclosing function.  `none` is the run-time panic
"index out of range"; `some r` is the value the enclosing function returns. -/
def partLoop (expectedContentRangeHeaders : List String) (expectedData : List (List UInt8))
    (expectedNumberOfParts : Int) : Reader → Nat → Option (Option Error)
  | [], _ => some none
  | .error err :: _, _ => if err = Error.EOF then some none else some (some err)
  | .ok part :: mpReader, partIdx =>
    if (partIdx : Int) > expectedNumberOfParts - 1 then
      some (some (Errorf ("unexpected number of data parts returned. Expected "
        ++ toString expectedNumberOfParts ++ " but got at least " ++ toString partIdx)))
    else if part.Header.Get "Content-Type" ≠ "text/plain" then
      some (some (Errorf ("invalid content type header value in part " ++ toString (partIdx + 1)
        ++ ". Expected 'text/plain' got '" ++ part.Header.Get "Content-Type" ++ "'")))
    else
      match expectedContentRangeHeaders[partIdx]? with
      | none => none
      | some expectedHeader =>
        if part.Header.Get "Content-Range" ≠ expectedHeader then
          some (some (Errorf ("invalid content range header value in part "
            ++ toString (partIdx + 1) ++ ". Expected '" ++ expectedHeader ++ "' got '"
            ++ part.Header.Get "Content-Range" ++ "'")))
        else
          match ReadAll part.Body with
          | .error err =>
            some (some (Errorf ("error reading data from part " ++ toString (partIdx + 1)
              ++ ": " ++ err.Error)))
          | .ok partData =>
            match expectedData[partIdx]? with
            | none => none
            | some expected =>
              if partData ≠ expected then
                some (some (Errorf ("invalid data returned in part " ++ toString (partIdx + 1))))
              else
                partLoop expectedContentRangeHeaders expectedData expectedNumberOfParts
                  mpReader (partIdx + 1)

/-- What the enclosing function does with the loop's outcome. -/
def finishLoop (w : World) : Option (Option Error) → Result (Option Error)
  | none => .exit 2 w
  | some r => .ok r w

def testGetMultipleAbsoluteRanges (env : Env) (sampleData : List UInt8) (url : String) (w : World) :
    Result (Option Error) :=
  match NewRequest env "GET" url with
  | .error err => .ok (some err) w
  | .ok req =>
    let req := { req with Header := req.Header.Add "User-Agent" "rangetest/1.0" }
    let req := { req with Header := req.Header.Add "Range" "bytes=0-99,200-299,400-499" }
    match Do env req w with
    | (.error err, w) => .ok (some err) w
    | (.ok resp, w) =>
      if resp.StatusCode ≠ 206 then
        .ok (some (Errorf ("unexpected HTTP status code. Expected 206 got "
          ++ toString resp.StatusCode))) w
      else
        match env.ParseMediaType (resp.Header.Get "Content-Type") with
        | .error err => .ok (some err) w
        | .ok (ct, args) =>
          if ct ≠ "multipart/byteranges" then
            .ok (some (Errorf ("incorrect value of content typ header. Expected 'multipart/byteranges' got '"
              ++ ct ++ "'"))) w
          else
            let boundary := mapIndex args "boundary"
            if boundary = "" then .ok (some (Errorf "missing multipart boundary")) w
            else
              let mpReader := env.NewReader resp.Body boundary
              let expectedContentRangeHeaders := ["bytes 0-99/500", "bytes 200-299/500", "bytes 400-499/500"]
              match slice sampleData 0 100 with
              | none => .exit 2 w
              | some d0 =>
              match slice sampleData 200 300 with
              | none => .exit 2 w
              | some d1 =>
              match slice sampleData 400 500 with
              | none => .exit 2 w
              | some d2 =>
              let expectedData := [d0, d1, d2]
              let expectedNumberOfParts : Int := 3
              finishLoop w (partLoop expectedContentRangeHeaders expectedData
                expectedNumberOfParts mpReader 0)

def testGetMultipleAbsoluteAndRelativeRanges (env : Env) (sampleData : List UInt8) (url : String) (w : World) :
    Result (Option Error) :=
  match NewRequest env "GET" url with
  | .error err => .ok (some err) w
  | .ok req =>
    let req := { req with Header := req.Header.Add "User-Agent" "rangetest/1.0" }
    let req := { req with Header := req.Header.Add "Range" "bytes=0-99,-100" }
    match Do env req w with
    | (.error err, w) => .ok (some err) w
    | (.ok resp, w) =>
      if resp.StatusCode ≠ 206 then
        .ok (some (Errorf ("unexpected HTTP status code. Expected 206 got "
          ++ toString resp.StatusCode))) w
      else
        match env.ParseMediaType (resp.Header.Get "Content-Type") with
        | .error err => .ok (some err) w
        | .ok (ct, args) =>
          if ct ≠ "multipart/byteranges" then
            .ok (some (Errorf ("incorrect value of content typ header. Expected 'multipart/byteranges' got '"
              ++ ct ++ "'"))) w
          else
            let boundary := mapIndex args "boundary"
            if boundary = "" then .ok (some (Errorf "missing multipart boundary")) w
            else
              let mpReader := env.NewReader resp.Body boundary
              let expectedContentRangeHeaders := ["bytes 0-99/500", "bytes 400-499/500"]
              match slice sampleData 0 100 with
              | none => .exit 2 w
              | some d0 =>
              match slice sampleData 400 500 with
              | none => .exit 2 w
              | some d1 =>
              let expectedData := [d0, d1]
              let expectedNumberOfParts : Int := 2
              finishLoop w (partLoop expectedContentRangeHeaders expectedData
                expectedNumberOfParts mpReader 0)

def testUnsupportedUnitType (env : Env) (sampleData : List UInt8) (url : String) (w : World) :
    Result (Option Error) :=
  match NewRequest env "GET" url with
  | .error err => .ok (some err) w
  | .ok req =>
    let req := { req with Header := req.Header.Add "User-Agent" "rangetest/1.0" }
    let req := { req with Header := req.Header.Add "Range" "centimeters=0-" }
    match Do env req w with
    | (.error err, w) => .ok (some err) w
    | (.ok resp, w) =>
      if resp.StatusCode ≠ 200 then
        .ok (some (Errorf ("unexpected HTTP status code. Expected 200 got "
          ++ toString resp.StatusCode))) w
      else if resp.ContentLength ≠ (sampleData.length : Int) then
        .ok (some (Errorf ("incorrect value of content length header. Expected "
          ++ toString sampleData.length ++ " got " ++ toString resp.ContentLength))) w
      else
        match env.ParseMediaType (resp.Header.Get "Content-Type") with
        | .error err => .ok (some err) w
        | .ok (ct, _) =>
          if ct ≠ "text/plain" then
            .ok (some (Errorf ("incorrect value of content typ header. Expected 'text/plain' got '"
              ++ ct ++ "'"))) w
          else
            match ReadAll resp.Body with
            | .error err => .ok (some err) w
            | .ok respData =>
              if respData.length ≠ sampleData.length then
                .ok (some (Errorf ("incorrect data length. Expected " ++ toString sampleData.length
                  ++ " got " ++ toString respData.length))) w
              else
                if respData ≠ sampleData then .ok (some (Errorf "invalid data returned")) w
                else .ok none w

def testIndexOutOfRange (env : Env) (url : String) (w : World) : Result (Option Error) :=
  match NewRequest env "GET" url with
  | .error err => .ok (some err) w
  | .ok req =>
    let req := { req with Header := req.Header.Add "User-Agent" "rangetest/1.0" }
    let req := { req with Header := req.Header.Add "Range" "bytes=700-800" }
    match Do env req w with
    | (.error err, w) => .ok (some err) w
    | (.ok resp, w) =>
      if resp.StatusCode ≠ 416 then
        .ok (some (Errorf ("unexpected HTTP status code. Expected 416 got "
          ++ toString resp.StatusCode))) w
      else
        .ok none w

/-- The closure `runTest` of `performTestSuite`: run one test and print its report. -/
def runTest (url : String) (name : String) (t : String → World → Result (Option Error))
    (w : World) : Result Unit :=
  match t url w with
  | .exit status w => .exit status w
  | .ok (some err) w =>
    .ok () { w with stdout := w.stdout ++ (fail ++ " " ++ name ++ "\n       " ++ err.Error ++ "\n") }
  | .ok none w =>
    .ok () { w with stdout := w.stdout ++ (pass ++ " " ++ name ++ "\n") }

/-- Statement sequencing: the next statement runs only if the process is still alive. -/
def Result.andThen {α β : Type} (r : Result α) (k : α → World → Result β) : Result β :=
  match r with
  | .ok val w => k val w
  | .exit status w => .exit status w

def performTestSuite (env : Env) (sampleData : List UInt8) (url : String) (w : World) :
    Result Unit :=
  (runTest url "HEAD request" (testHEADRequest env sampleData) w).andThen fun _ w =>
  (runTest url "Get all data without range" (testGetAllDataWithoutRange env sampleData) w).andThen fun _ w =>
  (runTest url "Get all data with range" (testGetAllDataWithRange env sampleData) w).andThen fun _ w =>
  (runTest url "Get single absolute range" (testGetSingleAbsoluteRange env sampleData) w).andThen fun _ w =>
  (runTest url "Get single relative range with start index"
    (testGetSingleRelativeRangeStart env sampleData) w).andThen fun _ w =>
  (runTest url "Get single relative range with end index"
    (testGetSingleRelativeRangeEnd env sampleData) w).andThen fun _ w =>
  (runTest url "Get multiple absolute ranges" (testGetMultipleAbsoluteRanges env sampleData) w).andThen fun _ w =>
  (runTest url "Get multiple absolute and relative ranges"
    (testGetMultipleAbsoluteAndRelativeRanges env sampleData) w).andThen fun _ w =>
  (runTest url "Unsupported unit type" (testUnsupportedUnitType env sampleData) w).andThen fun _ w =>
  runTest url "Index out of range" (testIndexOutOfRange env) w

/-! ## rangetest.go -/

/-- `os.Args[0]` panics when `os.Args` is empty; `os.Exit(1)` ends the process. -/
def printHelpAndExit {α : Type} (Args : List String) (w : World) : Result α :=
  match Args[0]? with
  | none => .exit 2 w
  | some prog => .exit 1 { w with stdout := w.stdout ++ ("Usage: " ++ prog ++ " -u <absolute URL>\n") }

/-- The argument loop of `main`, from the state the loop is in (`i` and `url`); it
returns the final `url`. -/
def argLoop (Args args : List String) (i : Nat) (url : String) (w : World) : Result String :=
  if h : i < args.length then
    let arg := args[i]
    if arg = "-u" then
      if i = args.length - 1 then
        printHelpAndExit Args
          { w with stderr := w.stderr ++ ("Argument " ++ arg ++ " requires a value\n") }
      else
        match args[i + 1]? with
        | none => .exit 2 w
        | some value => argLoop Args args (i + 1 + 1) value w
    else
      printHelpAndExit Args { w with stderr := w.stderr ++ ("Unknown argument " ++ arg ++ "\n") }
  else
    .ok url w
termination_by args.length - i
decreasing_by omega

/-- The program; `Args` is `os.Args`.  Returning from `main` ends the process with
status 0, which is `Result.ok`. -/
def main (env : Env) (sampleData : List UInt8) (Args : List String) (w : World) : Result Unit :=
  if Args.length < 1 then printHelpAndExit Args w
  else
    let args := Args.drop 1
    (argLoop Args args 0 "" w).andThen fun url w =>
    performTestSuite env sampleData url w

/-! ## Vocabulary of the statements -/

/-- The request a scenario puts on the wire: the method, the target, the identifying
user agent and the scenario's `Range` value, if it has one. -/
def scenarioRequest (method url : String) (range : Option String) : Request :=
  { Method := method, URL := url,
    Header := ⟨("User-Agent", ["rangetest/1.0"]) ::
      (match range with
       | none => []
       | some value => [("Range", [value])])⟩ }

/-- The world after one more request has been sent. -/
def World.sent (w : World) (req : Request) : World :=
  { w with requests := w.requests ++ [req] }

/-- The `Content-Range` value the specification writes `bytes {start}-{end}/{total}`. -/
def contentRangeLiteral (start stop total : Nat) : String :=
  "bytes " ++ toString start ++ "-" ++ toString stop ++ "/" ++ toString total

/-! ## Example targets

Concrete environments to evaluate the harness on.  `exampleParseMediaType` stands for
`mime.ParseMediaType` on the two header values the examples use. -/

def exampleParseMediaType (v : String) : Except Error (String × List (String × String)) :=
  if v = "text/plain" then .ok ("text/plain", [])
  else if v = "multipart/byteranges; boundary=x" then
    .ok ("multipart/byteranges", [("boundary", "x")])
  else .error (.msg "mime: no media type")

/-- A target that gives the same answer to every request; `parts` is what the multipart
decoder makes of the answer's body. -/
def fixedTarget (ans : Except Error Response) (parts : Reader) : Env :=
  { parseURL := fun _ => none
    respond := fun _ _ => ans
    ParseMediaType := exampleParseMediaType
    NewReader := fun _ _ => parts }

/-- A 500-byte dataset: byte `i` is `i mod 256`. -/
def exampleData : List UInt8 := (List.range 500).map (fun i => UInt8.ofNat i)

/-- The world before the program has done anything. -/
def World.start : World := { requests := [], stdout := "", stderr := "" }

/-- A response to `bytes=0-` that is right for a 500-byte resource, with a one-byte body. -/
def oneByteResponse : Response :=
  { StatusCode := 206, ContentLength := 1,
    Header := ⟨[("Content-Type", ["text/plain"]), ("Content-Range", ["bytes 0-499/500"])]⟩,
    Body := ⟨[65], none⟩ }

/-- The conforming response to `bytes=0-` on `exampleData`. -/
def wholeRangeResponse : Response :=
  { StatusCode := 206, ContentLength := 500,
    Header := ⟨[("Content-Type", ["text/plain"]), ("Content-Range", ["bytes 0-499/500"])]⟩,
    Body := ⟨exampleData, none⟩ }

/-- Part `p` is the correct part for the bytes `[lo, hi)` of the dataset: media type
`text/plain`, the matching `Content-Range` literal, and the slice as content. -/
def IsCorrectPart (sampleData : List UInt8) (lo hi : Nat) (p : Part) : Prop :=
  p.Header.Get "Content-Type" = "text/plain" ∧
  p.Header.Get "Content-Range" = contentRangeLiteral lo (hi - 1) sampleData.length ∧
  p.Body.err = none ∧ slice sampleData lo hi = some p.Body.data

instance (sampleData : List UInt8) (lo hi : Nat) (p : Part) :
    Decidable (IsCorrectPart sampleData lo hi p) := by
  unfold IsCorrectPart
  infer_instance

/-- The error of the excess-part check, for the part at index `partIdx`. -/
def excessError (expectedNumberOfParts : Int) (partIdx : Nat) : Error :=
  Errorf ("unexpected number of data parts returned. Expected "
    ++ toString expectedNumberOfParts ++ " but got at least " ++ toString partIdx)

/-- The correct part for the bytes `[lo, hi)` of `exampleData`. -/
def examplePart (lo hi : Nat) : Part :=
  { Header := ⟨[("Content-Type", ["text/plain"]),
      ("Content-Range", [contentRangeLiteral lo (hi - 1) 500])]⟩,
    Body := ⟨(exampleData.drop lo).take (hi - lo), none⟩ }

/-- The bytes of an ASCII string. -/
def ascii (text : String) : List UInt8 := text.toList.map (fun c => UInt8.ofNat c.toNat)

/-- The `multipart/byteranges` encoding (RFC 2046, boundary `x`) of a sequence of parts. -/
def encodeParts (parts : List Part) : List UInt8 :=
  parts.foldr (fun p rest =>
      ascii "--x\r\n"
        ++ (p.Header.entries.foldr
              (fun kv acc => ascii (kv.1 ++ ": " ++ kv.2.headD "" ++ "\r\n") ++ acc) [])
        ++ ascii "\r\n" ++ p.Body.data ++ ascii "\r\n" ++ rest)
    (ascii "--x--\r\n")

/-- A 206 `multipart/byteranges` response carrying the given parts. -/
def multipartResponse (parts : List Part) : Response :=
  { StatusCode := 206, ContentLength := (encodeParts parts).length,
    Header := ⟨[("Content-Type", ["multipart/byteranges; boundary=x"])]⟩,
    Body := ⟨encodeParts parts, none⟩ }

/-- A target that answers every request with the multipart response of the given parts. -/
def multipartTarget (parts : List Part) : Env :=
  fixedTarget (.ok (multipartResponse parts)) (parts.map .ok)

/-- The target answers `req` with a 206 response of media type `multipart/byteranges`
with a non-empty boundary, and the decoder reads its body as `reader`. -/
def AnswersMultipart (env : Env) (w : World) (req : Request) (reader : Reader) : Prop :=
  ∃ resp params, env.respond w.requests req = .ok resp ∧ resp.StatusCode = 206 ∧
    env.ParseMediaType (resp.Header.Get "Content-Type") = .ok ("multipart/byteranges", params) ∧
    mapIndex params "boundary" ≠ "" ∧
    env.NewReader resp.Body (mapIndex params "boundary") = reader

/-- The address the examples test. -/
def exampleURL : String := "http://localhost/data.txt"

/-- The conforming response for the bytes `[lo, hi)` of `exampleData`. -/
def rangeResponse (lo hi : Nat) : Response :=
  { StatusCode := 206, ContentLength := (hi - lo : Nat),
    Header := ⟨[("Content-Type", ["text/plain"]),
      ("Content-Range", [contentRangeLiteral lo (hi - 1) 500])]⟩,
    Body := ⟨(exampleData.drop lo).take (hi - lo), none⟩ }

/-- The conforming response to a request without a usable `Range`: the whole of
`exampleData` with status 200. -/
def fullResponse : Response :=
  { StatusCode := 200, ContentLength := 500,
    Header := ⟨[("Content-Type", ["text/plain"]), ("Accept-Ranges", ["bytes"])]⟩,
    Body := ⟨exampleData, none⟩ }

/-- The conforming response to a range that lies outside the resource. -/
def notSatisfiableResponse : Response :=
  { StatusCode := 416, ContentLength := 0,
    Header := ⟨[("Content-Range", ["bytes */500"])]⟩,
    Body := ⟨[], none⟩ }

/-- The three parts of the conforming answer to `bytes=0-99,200-299,400-499`. -/
def threeParts : List Part := [examplePart 0 100, examplePart 200 300, examplePart 400 500]

/-- The three parts followed by one more. -/
def fourParts : List Part :=
  [examplePart 0 100, examplePart 200 300, examplePart 400 500, examplePart 0 100]

/-- The report `runTest` prints for a scenario: the pass marker and the name, or the fail
marker, the name and the failure detail. -/
def report (name : String) (r : Option Error) : String :=
  match r with
  | none => pass ++ " " ++ name ++ "\n"
  | some err => fail ++ " " ++ name ++ "\n       " ++ err.Error ++ "\n"

/-- The names of the ten scenarios, in catalog order. -/
def catalogNames : List String :=
  ["HEAD request", "Get all data without range", "Get all data with range",
    "Get single absolute range", "Get single relative range with start index",
    "Get single relative range with end index", "Get multiple absolute ranges",
    "Get multiple absolute and relative ranges", "Unsupported unit type",
    "Index out of range"]

/-- The requests of the ten scenarios, in catalog order. -/
def catalogRequests (url : String) : List Request :=
  [scenarioRequest "HEAD" url none, scenarioRequest "GET" url none,
    scenarioRequest "GET" url (some "bytes=0-"), scenarioRequest "GET" url (some "bytes=0-99"),
    scenarioRequest "GET" url (some "bytes=400-"), scenarioRequest "GET" url (some "bytes=-100"),
    scenarioRequest "GET" url (some "bytes=0-99,200-299,400-499"),
    scenarioRequest "GET" url (some "bytes=0-99,-100"),
    scenarioRequest "GET" url (some "centimeters=0-"),
    scenarioRequest "GET" url (some "bytes=700-800")]

/-- The requests a run of the suite sends: the catalog's, or none when `http.NewRequest`
rejects the URL. -/
def sentRequests (env : Env) (url : String) : List Request :=
  if env.parseURL url = none then catalogRequests url else []

/-- The error value a test returned (`none` also stands for a process that ended). -/
def verdictOf : Result (Option Error) → Option Error
  | .ok r _ => r
  | .exit _ _ => none

/-- Each scenario run by itself: scenario `i` starts in a world where the requests of the
scenarios before it have been sent (after `reqs`) and nothing has been printed. -/
def isolatedRuns (env : Env) (sampleData : List UInt8) (url : String) (reqs : List Request) :
    List (Result (Option Error)) :=
  [testHEADRequest env sampleData url ⟨reqs ++ (sentRequests env url).take 0, "", ""⟩,
    testGetAllDataWithoutRange env sampleData url ⟨reqs ++ (sentRequests env url).take 1, "", ""⟩,
    testGetAllDataWithRange env sampleData url ⟨reqs ++ (sentRequests env url).take 2, "", ""⟩,
    testGetSingleAbsoluteRange env sampleData url ⟨reqs ++ (sentRequests env url).take 3, "", ""⟩,
    testGetSingleRelativeRangeStart env sampleData url
      ⟨reqs ++ (sentRequests env url).take 4, "", ""⟩,
    testGetSingleRelativeRangeEnd env sampleData url
      ⟨reqs ++ (sentRequests env url).take 5, "", ""⟩,
    testGetMultipleAbsoluteRanges env sampleData url
      ⟨reqs ++ (sentRequests env url).take 6, "", ""⟩,
    testGetMultipleAbsoluteAndRelativeRanges env sampleData url
      ⟨reqs ++ (sentRequests env url).take 7, "", ""⟩,
    testUnsupportedUnitType env sampleData url ⟨reqs ++ (sentRequests env url).take 8, "", ""⟩,
    testIndexOutOfRange env url ⟨reqs ++ (sentRequests env url).take 9, "", ""⟩]

/-- The arguments `-u v₁ -u v₂ …` for a list of values. -/
def flagPairs : List String → List String
  | [] => []
  | v :: vs => "-u" :: v :: flagPairs vs

/-- The usage line `printHelpAndExit` prints. -/
def usage (prog : String) : String := "Usage: " ++ prog ++ " -u <absolute URL>\n"

/-! ## Theorems -/

theorem NewRequest_ok (env : Env) (method url : String) (h : env.parseURL url = none) :
    NewRequest env method url = .ok { Method := method, URL := url, Header := ⟨[]⟩ } := by
  simp [NewRequest, h]

/-- C8: when the transport succeeds, `testIndexOutOfRange` returns no error exactly when
the status code is 416, and its whole outcome is a function of the status code alone:
neither the headers nor the body of the response are looked at. -/
theorem testIndexOutOfRange_iff_status_416 (env : Env) (url : String) (w : World)
    (resp : Response) (hurl : env.parseURL url = none)
    (hresp : env.respond w.requests (scenarioRequest "GET" url (some "bytes=700-800")) = .ok resp) :
    (testIndexOutOfRange env url w
        = .ok none (w.sent (scenarioRequest "GET" url (some "bytes=700-800")))
      ↔ resp.StatusCode = 416) ∧
    testIndexOutOfRange env url w
      = .ok (if resp.StatusCode = 416 then none
             else some (Errorf ("unexpected HTTP status code. Expected 416 got "
               ++ toString resp.StatusCode)))
          (w.sent (scenarioRequest "GET" url (some "bytes=700-800"))) := by
  have hreq : (scenarioRequest "GET" url (some "bytes=700-800")) =
      { Method := "GET", URL := url, Header :=
        (Header.Add (Header.Add ⟨[]⟩ "User-Agent" "rangetest/1.0") "Range" "bytes=700-800") } := by
    simp [scenarioRequest, Header.Add, List.lookup]
  rw [hreq] at hresp ⊢
  simp only [testIndexOutOfRange, NewRequest_ok env _ url hurl, Do, hresp, World.sent]
  by_cases h : resp.StatusCode = 416 <;> simp [h]

theorem scenarioRequest_range (method url range : String) :
    scenarioRequest method url (some range) =
      { Method := method, URL := url, Header :=
        (Header.Add (Header.Add ⟨[]⟩ "User-Agent" "rangetest/1.0") "Range" range) } := by
  simp [scenarioRequest, Header.Add, List.lookup]

theorem scenarioRequest_plain (method url : String) :
    scenarioRequest method url none =
      { Method := method, URL := url, Header :=
        Header.Add ⟨[]⟩ "User-Agent" "rangetest/1.0" } := by
  simp [scenarioRequest, Header.Add, List.lookup]

theorem slice_of_le (s : List UInt8) (lo hi : Nat) (h : lo ≤ hi ∧ hi ≤ s.length) :
    slice s lo hi = some ((s.drop lo).take (hi - lo)) := by
  simp [slice, h]

/-- C2: on the 500-byte dataset, for a response that arrived and whose body reads without
error, `testGetSingleAbsoluteRange` returns normally, and it returns no error exactly
when the status is 206, the content length is 100, the media type parses to
`text/plain`, `Content-Range` is the literal `bytes 0-99/500` and the body is
`sampleData[0:100]`; in every other case it returns an error. -/
theorem testGetSingleAbsoluteRange_iff (env : Env) (sampleData : List UInt8) (url : String)
    (w : World) (resp : Response) (hlen : sampleData.length = 500)
    (hurl : env.parseURL url = none)
    (hresp : env.respond w.requests (scenarioRequest "GET" url (some "bytes=0-99")) = .ok resp)
    (hbody : resp.Body.err = none) :
    ∃ r, testGetSingleAbsoluteRange env sampleData url w
        = .ok r (w.sent (scenarioRequest "GET" url (some "bytes=0-99"))) ∧
      (r = none ↔
        resp.StatusCode = 206 ∧ resp.ContentLength = 100 ∧
        (∃ params, env.ParseMediaType (resp.Header.Get "Content-Type")
          = .ok ("text/plain", params)) ∧
        resp.Header.Get "Content-Range" = "bytes 0-99/500" ∧
        slice sampleData 0 100 = some resp.Body.data) := by
  rw [scenarioRequest_range] at hresp ⊢
  have hs : slice sampleData 0 100 = some ((sampleData.drop 0).take (100 - 0)) :=
    slice_of_le _ _ _ (by omega)
  have hr : ReadAll resp.Body = .ok resp.Body.data := by simp [ReadAll, hbody]
  simp only [testGetSingleAbsoluteRange, NewRequest_ok env _ url hurl, Do, hresp, World.sent,
    hs, hr]
  repeat' split
  all_goals simp_all
  all_goals intro h
  · have hl := congrArg List.length h
    simp [hlen] at hl
    omega
  · exact absurd h.symm (by assumption)

/-- C6: on the 500-byte dataset, given the same response, the open-ended validator
(`bytes=400-`) and the suffix validator (`bytes=-100`) return the same thing, and they
return no error exactly when the status is 206, the content length is 100, the media
type parses to `text/plain`, `Content-Range` is `bytes 400-499/500` and the body reads
as `sampleData[400:500]`, which is `sampleData[L-100:L]`. -/
theorem testGetSingleRelativeRange_start_end_agree (env : Env) (sampleData : List UInt8)
    (url : String) (w₁ w₂ : World) (resp : Response) (hlen : sampleData.length = 500)
    (hurl : env.parseURL url = none)
    (hstart : env.respond w₁.requests (scenarioRequest "GET" url (some "bytes=400-")) = .ok resp)
    (hend : env.respond w₂.requests (scenarioRequest "GET" url (some "bytes=-100")) = .ok resp) :
    ∃ r, testGetSingleRelativeRangeStart env sampleData url w₁
        = .ok r (w₁.sent (scenarioRequest "GET" url (some "bytes=400-"))) ∧
      testGetSingleRelativeRangeEnd env sampleData url w₂
        = .ok r (w₂.sent (scenarioRequest "GET" url (some "bytes=-100"))) ∧
      (r = none ↔
        resp.StatusCode = 206 ∧ resp.ContentLength = 100 ∧
        (∃ params, env.ParseMediaType (resp.Header.Get "Content-Type")
          = .ok ("text/plain", params)) ∧
        resp.Header.Get "Content-Range" = "bytes 400-499/500" ∧
        (∃ data, ReadAll resp.Body = .ok data ∧ slice sampleData 400 500 = some data ∧
          slice sampleData (sampleData.length - 100) sampleData.length = some data)) := by
  rw [scenarioRequest_range] at hstart hend ⊢
  rw [scenarioRequest_range]
  have hs : slice sampleData 400 500 = some ((sampleData.drop 400).take (500 - 400)) :=
    slice_of_le _ _ _ (by omega)
  simp only [testGetSingleRelativeRangeStart, testGetSingleRelativeRangeEnd,
    NewRequest_ok env _ url hurl, Do, hstart, hend, World.sent, hs, hlen]
  repeat' split
  all_goals simp_all
  all_goals intro h
  · have hl := congrArg List.length h
    simp [hlen] at hl
    omega
  · exact absurd h.symm (by assumption)

/-- C7: for every dataset and every answer of the transport, the unsupported-unit
validator and the no-range validator return the same thing (the same error, with the same
text, or no error), and they return no error exactly when a response arrived with status
200, content length `L`, a media type that parses to `text/plain`, and a body that reads
as the whole dataset. -/
theorem testUnsupportedUnitType_same_as_without_range (env : Env) (sampleData : List UInt8)
    (url : String) (w₁ w₂ : World) (ans : Except Error Response)
    (hurl : env.parseURL url = none)
    (hplain : env.respond w₁.requests (scenarioRequest "GET" url none) = ans)
    (hunit : env.respond w₂.requests (scenarioRequest "GET" url (some "centimeters=0-")) = ans) :
    ∃ r, testGetAllDataWithoutRange env sampleData url w₁
        = .ok r (w₁.sent (scenarioRequest "GET" url none)) ∧
      testUnsupportedUnitType env sampleData url w₂
        = .ok r (w₂.sent (scenarioRequest "GET" url (some "centimeters=0-"))) ∧
      (r = none ↔
        ∃ resp, ans = .ok resp ∧
          resp.StatusCode = 200 ∧ resp.ContentLength = (sampleData.length : Int) ∧
          (∃ params, env.ParseMediaType (resp.Header.Get "Content-Type")
            = .ok ("text/plain", params)) ∧
          ReadAll resp.Body = .ok sampleData) := by
  rw [scenarioRequest_range] at hunit ⊢
  rw [scenarioRequest_plain] at hplain ⊢
  simp only [testGetAllDataWithoutRange, testUnsupportedUnitType,
    NewRequest_ok env _ url hurl, Do, hplain, hunit, World.sent]
  rcases ans with e | resp
  · simp
  by_cases h1 : resp.StatusCode = 200
  swap
  · simp [h1]
  by_cases h2 : resp.ContentLength = (sampleData.length : Int)
  swap
  · simp [h1, h2]
  rcases hp : env.ParseMediaType (resp.Header.Get "Content-Type") with e | ⟨ct, params⟩
  · simp [h1, h2, hp]
  by_cases h3 : ct = "text/plain"
  swap
  · simp [h1, h2, hp, h3]
  rcases hb : ReadAll resp.Body with e | data
  · simp [h1, h2, hp, h3, hb]
  by_cases h4 : data.length = sampleData.length
  swap
  · simp [h1, h2, hp, h3, hb, h4]
    intro hd
    exact h4 (by rw [hd])
  by_cases h5 : data = sampleData
  · simp [h1, h2, hp, h3, hb, h4, h5]
  · simp [h1, h2, hp, h3, hb, h4, h5]

theorem exampleData_length : exampleData.length = 500 := by
  simp [exampleData]

/-- C5, as stated, fails: on a one-byte dataset the response with
`Content-Range: bytes 0-499/500` is accepted, and that is not `bytes 0-{L-1}/{L}`. -/
theorem testGetAllDataWithRange_literal_not_from_length :
    testGetAllDataWithRange (fixedTarget (.ok oneByteResponse) []) [65]
        "http://localhost/data.txt" World.start
      = .ok none (World.start.sent
          (scenarioRequest "GET" "http://localhost/data.txt" (some "bytes=0-"))) ∧
    oneByteResponse.Header.Get "Content-Range"
      ≠ contentRangeLiteral 0 (([65] : List UInt8).length - 1) ([65] : List UInt8).length := by
  constructor
  · rfl
  · decide

/-- C5, amended: for a dataset of any length `L`, `testGetAllDataWithRange` accepts a
response only if `Content-Range` is the fixed literal `bytes 0-499/500`, which is
`bytes 0-{L-1}/{L}` when `L = 500`; the content length and the body are checked
against `L`. -/
theorem testGetAllDataWithRange_accepts_only_literal (env : Env) (sampleData : List UInt8)
    (url : String) (w w' : World) (resp : Response)
    (hurl : env.parseURL url = none)
    (hresp : env.respond w.requests (scenarioRequest "GET" url (some "bytes=0-")) = .ok resp)
    (hacc : testGetAllDataWithRange env sampleData url w = .ok none w') :
    resp.Header.Get "Content-Range" = "bytes 0-499/500" ∧
    (sampleData.length = 500 → resp.Header.Get "Content-Range"
      = contentRangeLiteral 0 (sampleData.length - 1) sampleData.length) ∧
    resp.ContentLength = (sampleData.length : Int) ∧
    ReadAll resp.Body = .ok sampleData := by
  rw [scenarioRequest_range] at hresp
  simp only [testGetAllDataWithRange, NewRequest_ok env _ url hurl, Do, hresp] at hacc
  by_cases h1 : resp.StatusCode = 206
  swap
  · simp [h1] at hacc
  by_cases h2 : resp.ContentLength = (sampleData.length : Int)
  swap
  · simp [h1, h2] at hacc
  rcases hp : env.ParseMediaType (resp.Header.Get "Content-Type") with e | ⟨ct, params⟩
  · simp [h1, h2, hp] at hacc
  by_cases h3 : ct = "text/plain"
  swap
  · simp [h1, h2, hp, h3] at hacc
  by_cases h4 : resp.Header.Get "Content-Range" = "bytes 0-499/500"
  swap
  · simp [h1, h2, hp, h3, h4] at hacc
  rcases hb : ReadAll resp.Body with e | data
  · simp [h1, h2, hp, h3, h4, hb] at hacc
  by_cases h5 : data.length = sampleData.length
  swap
  · simp [h1, h2, hp, h3, h4, hb, h5] at hacc
  by_cases h6 : data = sampleData
  swap
  · simp [h1, h2, hp, h3, h4, hb, h5, h6] at hacc
  refine ⟨h4, ?_, h2, by rw [h6]⟩
  intro hl
  rw [h4, hl]
  decide

/-- C5 on the conforming answer to `bytes=0-` for `exampleData`: it is accepted, and it
carries the literal, the length and the body the theorem states. -/
theorem testGetAllDataWithRange_accepts_only_literal_witness :
    testGetAllDataWithRange (fixedTarget (.ok wholeRangeResponse) []) exampleData
        "http://localhost/data.txt" World.start
      = .ok none (World.start.sent
          (scenarioRequest "GET" "http://localhost/data.txt" (some "bytes=0-"))) ∧
    (wholeRangeResponse.Header.Get "Content-Range" = "bytes 0-499/500" ∧
    (exampleData.length = 500 → wholeRangeResponse.Header.Get "Content-Range"
      = contentRangeLiteral 0 (exampleData.length - 1) exampleData.length) ∧
    wholeRangeResponse.ContentLength = (exampleData.length : Int) ∧
    ReadAll wholeRangeResponse.Body = .ok exampleData) :=
  have hacc : testGetAllDataWithRange (fixedTarget (.ok wholeRangeResponse) []) exampleData
        "http://localhost/data.txt" World.start
      = .ok none (World.start.sent
          (scenarioRequest "GET" "http://localhost/data.txt" (some "bytes=0-"))) := by
    simp [testGetAllDataWithRange, NewRequest, Do, fixedTarget, wholeRangeResponse,
      exampleParseMediaType, Header.Get, List.lookup, ReadAll, exampleData_length, World.sent,
      scenarioRequest, Header.Add]
  ⟨hacc, testGetAllDataWithRange_accepts_only_literal _ exampleData _ World.start _
    wholeRangeResponse rfl rfl hacc⟩

/-! ### The multipart validators -/

theorem testGetMultipleAbsoluteRanges_eq_loop (env : Env) (sampleData : List UInt8)
    (url : String) (w : World) (resp : Response) (params : List (String × String))
    (hlen : sampleData.length = 500) (hurl : env.parseURL url = none)
    (hresp : env.respond w.requests
      (scenarioRequest "GET" url (some "bytes=0-99,200-299,400-499")) = .ok resp)
    (hstatus : resp.StatusCode = 206)
    (hct : env.ParseMediaType (resp.Header.Get "Content-Type")
      = .ok ("multipart/byteranges", params))
    (hb : mapIndex params "boundary" ≠ "") :
    testGetMultipleAbsoluteRanges env sampleData url w
      = finishLoop (w.sent (scenarioRequest "GET" url (some "bytes=0-99,200-299,400-499")))
          (partLoop ["bytes 0-99/500", "bytes 200-299/500", "bytes 400-499/500"]
            [(sampleData.drop 0).take 100, (sampleData.drop 200).take 100,
              (sampleData.drop 400).take 100] 3
            (env.NewReader resp.Body (mapIndex params "boundary")) 0) := by
  rw [scenarioRequest_range] at hresp ⊢
  have hs0 : slice sampleData 0 100 = some ((sampleData.drop 0).take 100) :=
    slice_of_le _ _ _ (by omega)
  have hs1 : slice sampleData 200 300 = some ((sampleData.drop 200).take 100) :=
    slice_of_le _ _ _ (by omega)
  have hs2 : slice sampleData 400 500 = some ((sampleData.drop 400).take 100) :=
    slice_of_le _ _ _ (by omega)
  simp only [testGetMultipleAbsoluteRanges, NewRequest_ok env _ url hurl, Do, hresp, World.sent,
    hstatus, hct, hs0, hs1, hs2]
  simp [hb]

theorem testGetMultipleAbsoluteAndRelativeRanges_eq_loop (env : Env) (sampleData : List UInt8)
    (url : String) (w : World) (resp : Response) (params : List (String × String))
    (hlen : sampleData.length = 500) (hurl : env.parseURL url = none)
    (hresp : env.respond w.requests
      (scenarioRequest "GET" url (some "bytes=0-99,-100")) = .ok resp)
    (hstatus : resp.StatusCode = 206)
    (hct : env.ParseMediaType (resp.Header.Get "Content-Type")
      = .ok ("multipart/byteranges", params))
    (hb : mapIndex params "boundary" ≠ "") :
    testGetMultipleAbsoluteAndRelativeRanges env sampleData url w
      = finishLoop (w.sent (scenarioRequest "GET" url (some "bytes=0-99,-100")))
          (partLoop ["bytes 0-99/500", "bytes 400-499/500"]
            [(sampleData.drop 0).take 100, (sampleData.drop 400).take 100] 2
            (env.NewReader resp.Body (mapIndex params "boundary")) 0) := by
  rw [scenarioRequest_range] at hresp ⊢
  have hs0 : slice sampleData 0 100 = some ((sampleData.drop 0).take 100) :=
    slice_of_le _ _ _ (by omega)
  have hs2 : slice sampleData 400 500 = some ((sampleData.drop 400).take 100) :=
    slice_of_le _ _ _ (by omega)
  simp only [testGetMultipleAbsoluteAndRelativeRanges, NewRequest_ok env _ url hurl, Do, hresp,
    World.sent, hstatus, hct, hs0, hs2]
  simp [hb]

/-- The loop never indexes past the end of its tables when they have
`expectedNumberOfParts` entries. -/
theorem partLoop_ne_none (hs : List String) (ds : List (List UInt8)) (n : Nat)
    (hhs : hs.length = n) (hds : ds.length = n) (reader : Reader) :
    ∀ partIdx, partLoop hs ds (n : Int) reader partIdx ≠ none := by
  induction reader with
  | nil => intro partIdx; simp [partLoop]
  | cons ev reader ih =>
    intro partIdx
    rcases ev with err | part
    · simp only [partLoop]
      split <;> simp
    · simp only [partLoop]
      split
      · simp
      rename_i hidx
      have hlt : partIdx < n := by omega
      split
      · simp
      have h1 : hs[partIdx]? = some (hs.get ⟨partIdx, by omega⟩) := by
        simp [List.getElem?_eq_getElem, hhs, hlt]
      have h2 : ds[partIdx]? = some (ds.get ⟨partIdx, by omega⟩) := by
        simp [List.getElem?_eq_getElem, hds, hlt]
      simp only [h1, h2]
      split
      · simp
      split
      · simp
      split
      · simp
      · exact ih _

/-- A sequence with more parts than expected ends in an error, and the error is either
the excess-part error or one that the expected parts alone already produce. -/
theorem partLoop_excess (hs : List String) (ds : List (List UInt8)) (n : Nat)
    (hhs : hs.length = n) (hds : ds.length = n) (rest : Reader) (ps : List Part) :
    ∀ partIdx, partIdx ≤ n → n - partIdx < ps.length →
      ∃ err, partLoop hs ds (n : Int) (ps.map .ok ++ rest) partIdx = some (some err) ∧
        (err = excessError (n : Int) n ∨
          partLoop hs ds (n : Int) ((ps.take (n - partIdx)).map .ok) partIdx
            = some (some err)) := by
  induction ps with
  | nil => intro partIdx _ h; simp at h
  | cons p ps ih =>
    intro partIdx hle hlt
    by_cases hn : partIdx = n
    · subst hn
      refine ⟨excessError (partIdx : Int) partIdx, ?_, Or.inl rfl⟩
      simp [partLoop, excessError]
    have hidx : ¬ ((partIdx : Int) > (n : Int) - 1) := by omega
    obtain ⟨k, hk⟩ : ∃ k, n - partIdx = k + 1 := ⟨n - partIdx - 1, by omega⟩
    have hk' : n - (partIdx + 1) = k := by omega
    have hb1 : partIdx < hs.length := by omega
    have hb2 : partIdx < ds.length := by omega
    have h1 : hs[partIdx]? = some hs[partIdx] := List.getElem?_eq_getElem hb1
    have h2 : ds[partIdx]? = some ds[partIdx] := List.getElem?_eq_getElem hb2
    simp only [hk, List.take_succ_cons, List.map_cons, List.cons_append, partLoop, hidx,
      if_false, h1, h2]
    by_cases c1 : p.Header.Get "Content-Type" = "text/plain"
    swap
    · simp [c1]
    by_cases c2 : p.Header.Get "Content-Range" = hs[partIdx]
    swap
    · simp [c1, c2]
    rcases c3 : ReadAll p.Body with e | data
    · simp [c1, c2]
    by_cases c4 : data = ds[partIdx]
    swap
    · simp [c1, c2, c4]
    obtain ⟨err, he, hor⟩ := ih (partIdx + 1) (by omega) (by simp at hlt; omega)
    rw [hk'] at hor
    exact ⟨err, by simpa [c1, c2, c4] using he, by simpa [c1, c2, c4] using hor⟩

theorem partLoop_three_ne_none (ds : List (List UInt8)) (hds : ds.length = 3) (reader : Reader)
    (partIdx : Nat) :
    partLoop ["bytes 0-99/500", "bytes 200-299/500", "bytes 400-499/500"] ds 3 reader partIdx
      ≠ none := by
  have h := partLoop_ne_none ["bytes 0-99/500", "bytes 200-299/500", "bytes 400-499/500"] ds 3
    rfl hds reader partIdx
  simpa using h

theorem partLoop_two_ne_none (ds : List (List UInt8)) (hds : ds.length = 2) (reader : Reader)
    (partIdx : Nat) :
    partLoop ["bytes 0-99/500", "bytes 400-499/500"] ds 2 reader partIdx ≠ none := by
  have h := partLoop_ne_none ["bytes 0-99/500", "bytes 400-499/500"] ds 2 rfl hds reader partIdx
  simpa using h

theorem absoluteRanges_of_answer (env : Env) (sampleData : List UInt8) (url : String)
    (w : World) (reader : Reader) (hlen : sampleData.length = 500)
    (hurl : env.parseURL url = none)
    (hans : AnswersMultipart env w
      (scenarioRequest "GET" url (some "bytes=0-99,200-299,400-499")) reader) :
    testGetMultipleAbsoluteRanges env sampleData url w
      = finishLoop (w.sent (scenarioRequest "GET" url (some "bytes=0-99,200-299,400-499")))
          (partLoop ["bytes 0-99/500", "bytes 200-299/500", "bytes 400-499/500"]
            [(sampleData.drop 0).take 100, (sampleData.drop 200).take 100,
              (sampleData.drop 400).take 100] 3 reader 0) := by
  obtain ⟨resp, params, hresp, hstatus, hct, hb, hreader⟩ := hans
  rw [testGetMultipleAbsoluteRanges_eq_loop env sampleData url w resp params hlen hurl hresp
    hstatus hct hb, hreader]

theorem absoluteAndRelativeRanges_of_answer (env : Env) (sampleData : List UInt8)
    (url : String) (w : World) (reader : Reader) (hlen : sampleData.length = 500)
    (hurl : env.parseURL url = none)
    (hans : AnswersMultipart env w (scenarioRequest "GET" url (some "bytes=0-99,-100")) reader) :
    testGetMultipleAbsoluteAndRelativeRanges env sampleData url w
      = finishLoop (w.sent (scenarioRequest "GET" url (some "bytes=0-99,-100")))
          (partLoop ["bytes 0-99/500", "bytes 400-499/500"]
            [(sampleData.drop 0).take 100, (sampleData.drop 400).take 100] 2 reader 0) := by
  obtain ⟨resp, params, hresp, hstatus, hct, hb, hreader⟩ := hans
  rw [testGetMultipleAbsoluteAndRelativeRanges_eq_loop env sampleData url w resp params hlen
    hurl hresp hstatus hct hb, hreader]

theorem AnswersMultipart_truncate (env : Env) (w : World) (req : Request) (reader short : Reader)
    (hans : AnswersMultipart env w req reader) :
    AnswersMultipart { env with NewReader := fun _ _ => short } w req short := by
  obtain ⟨resp, params, hresp, hstatus, hct, hb, _⟩ := hans
  exact ⟨resp, params, hresp, hstatus, hct, hb, rfl⟩

/-- C4: on the 500-byte dataset, when the decoder yields more parts than expected (more
than three for `testGetMultipleAbsoluteRanges`, more than two for
`testGetMultipleAbsoluteAndRelativeRanges`), the validator returns an error; it does not
panic on an index past the end of its tables; and the error is either the excess-part
error, raised on meeting the first excess part, or an error that the expected parts alone
already produce: the excess part's headers and content, and whatever follows it, play no
role. -/
theorem excess_parts_rejected (env : Env) (sampleData : List UInt8) (url : String)
    (w : World) (ps : List Part) (rest : Reader) (hlen : sampleData.length = 500)
    (hurl : env.parseURL url = none) :
    (AnswersMultipart env w (scenarioRequest "GET" url (some "bytes=0-99,200-299,400-499"))
        (ps.map .ok ++ rest) → 3 < ps.length →
      ∃ err, testGetMultipleAbsoluteRanges env sampleData url w
          = .ok (some err)
              (w.sent (scenarioRequest "GET" url (some "bytes=0-99,200-299,400-499"))) ∧
        (err = excessError 3 3 ∨
          testGetMultipleAbsoluteRanges
              { env with NewReader := fun _ _ => (ps.take 3).map .ok } sampleData url w
            = .ok (some err)
                (w.sent (scenarioRequest "GET" url (some "bytes=0-99,200-299,400-499"))))) ∧
    (AnswersMultipart env w (scenarioRequest "GET" url (some "bytes=0-99,-100"))
        (ps.map .ok ++ rest) → 2 < ps.length →
      ∃ err, testGetMultipleAbsoluteAndRelativeRanges env sampleData url w
          = .ok (some err) (w.sent (scenarioRequest "GET" url (some "bytes=0-99,-100"))) ∧
        (err = excessError 2 2 ∨
          testGetMultipleAbsoluteAndRelativeRanges
              { env with NewReader := fun _ _ => (ps.take 2).map .ok } sampleData url w
            = .ok (some err) (w.sent (scenarioRequest "GET" url (some "bytes=0-99,-100"))))) := by
  constructor
  · intro hans hmore
    have hshort := AnswersMultipart_truncate env w _ _ ((ps.take 3).map .ok) hans
    rw [absoluteRanges_of_answer env sampleData url w _ hlen hurl hans,
      absoluteRanges_of_answer { env with NewReader := fun _ _ => (ps.take 3).map .ok }
        sampleData url w _ hlen hurl hshort]
    obtain ⟨err, he, hor⟩ := partLoop_excess
      ["bytes 0-99/500", "bytes 200-299/500", "bytes 400-499/500"]
      [(sampleData.drop 0).take 100, (sampleData.drop 200).take 100,
        (sampleData.drop 400).take 100] 3 rfl rfl rest ps 0 (by omega) (by omega)
    simp only [Nat.cast_ofNat, Nat.sub_zero] at he hor
    refine ⟨err, by rw [he]; rfl, ?_⟩
    rcases hor with h | h
    · exact Or.inl h
    · exact Or.inr (by rw [h]; rfl)
  · intro hans hmore
    have hshort := AnswersMultipart_truncate env w _ _ ((ps.take 2).map .ok) hans
    rw [absoluteAndRelativeRanges_of_answer env sampleData url w _ hlen hurl hans,
      absoluteAndRelativeRanges_of_answer
        { env with NewReader := fun _ _ => (ps.take 2).map .ok } sampleData url w _ hlen hurl
        hshort]
    obtain ⟨err, he, hor⟩ := partLoop_excess ["bytes 0-99/500", "bytes 400-499/500"]
      [(sampleData.drop 0).take 100, (sampleData.drop 400).take 100] 2 rfl rfl rest ps 0
      (by omega) (by omega)
    simp only [Nat.cast_ofNat, Nat.sub_zero] at he hor
    refine ⟨err, by rw [he]; rfl, ?_⟩
    rcases hor with h | h
    · exact Or.inl h
    · exact Or.inr (by rw [h]; rfl)

theorem IsCorrectPart.reads (sampleData : List UInt8) (lo hi : Nat) (p : Part)
    (h : IsCorrectPart sampleData lo hi p) (hle : lo ≤ hi ∧ hi ≤ sampleData.length) :
    ReadAll p.Body = .ok ((sampleData.drop lo).take (hi - lo)) := by
  obtain ⟨_, _, herr, hdata⟩ := h
  rw [slice_of_le _ _ _ hle] at hdata
  simp only [ReadAll, herr]
  injection hdata with hdata
  rw [hdata]

/-- One turn of the loop on a part that passes every check. -/
theorem partLoop_pass (hs : List String) (ds : List (List UInt8)) (n : Int) (part : Part)
    (mpReader : Reader) (partIdx : Nat) (expectedHeader : String) (expected : List UInt8)
    (hidx : (partIdx : Int) ≤ n - 1)
    (hct : part.Header.Get "Content-Type" = "text/plain")
    (hh : hs[partIdx]? = some expectedHeader)
    (hcr : part.Header.Get "Content-Range" = expectedHeader)
    (hd : ds[partIdx]? = some expected)
    (hread : ReadAll part.Body = .ok expected) :
    partLoop hs ds n (.ok part :: mpReader) partIdx = partLoop hs ds n mpReader (partIdx + 1) := by
  have h : ¬ ((partIdx : Int) > n - 1) := by omega
  simp [partLoop, h, hct, hh, hcr, hd, hread]

/-- One turn of the loop on a part whose `Content-Range` is not the expected one. -/
theorem partLoop_wrong_range (hs : List String) (ds : List (List UInt8)) (n : Int) (part : Part)
    (mpReader : Reader) (partIdx : Nat) (expectedHeader : String)
    (hidx : (partIdx : Int) ≤ n - 1)
    (hct : part.Header.Get "Content-Type" = "text/plain")
    (hh : hs[partIdx]? = some expectedHeader)
    (hcr : part.Header.Get "Content-Range" ≠ expectedHeader) :
    ∃ err, partLoop hs ds n (.ok part :: mpReader) partIdx = some (some err) := by
  have h : ¬ ((partIdx : Int) > n - 1) := by omega
  simp [partLoop, h, hct, hh, hcr]

/-- C3: on the 500-byte dataset, let the decoder yield the three correct parts (for
`[0,100)`, `[200,300)` and `[400,500)`, each with `Content-Type: text/plain` and its
`Content-Range` literal) in some order.  In the request order
`testGetMultipleAbsoluteRanges` returns no error; in any other order it returns an
error. -/
theorem testGetMultipleAbsoluteRanges_order (env : Env) (sampleData : List UInt8)
    (url : String) (w : World) (p₀ p₁ p₂ : Part) (ps : List Part)
    (hlen : sampleData.length = 500) (hurl : env.parseURL url = none)
    (h₀ : IsCorrectPart sampleData 0 100 p₀) (h₁ : IsCorrectPart sampleData 200 300 p₁)
    (h₂ : IsCorrectPart sampleData 400 500 p₂) (hperm : ps.Perm [p₀, p₁, p₂])
    (hans : AnswersMultipart env w
      (scenarioRequest "GET" url (some "bytes=0-99,200-299,400-499")) (ps.map .ok)) :
    (ps = [p₀, p₁, p₂] →
      testGetMultipleAbsoluteRanges env sampleData url w
        = .ok none (w.sent (scenarioRequest "GET" url (some "bytes=0-99,200-299,400-499")))) ∧
    (ps ≠ [p₀, p₁, p₂] →
      ∃ err, testGetMultipleAbsoluteRanges env sampleData url w
        = .ok (some err)
            (w.sent (scenarioRequest "GET" url (some "bytes=0-99,200-299,400-499")))) := by
  rw [absoluteRanges_of_answer env sampleData url w _ hlen hurl hans]
  have r₀ := IsCorrectPart.reads _ _ _ _ h₀ (by omega)
  have r₁ := IsCorrectPart.reads _ _ _ _ h₁ (by omega)
  have r₂ := IsCorrectPart.reads _ _ _ _ h₂ (by omega)
  have c₀ : p₀.Header.Get "Content-Range" = "bytes 0-99/500" := by
    rw [h₀.2.1, hlen]; decide
  have c₁ : p₁.Header.Get "Content-Range" = "bytes 200-299/500" := by
    rw [h₁.2.1, hlen]; decide
  have c₂ : p₂.Header.Get "Content-Range" = "bytes 400-499/500" := by
    rw [h₂.2.1, hlen]; decide
  have hl := hperm.length_eq
  match ps, hperm, hl with
  | [a, b, c], hperm, _ =>
    have ha : a = p₀ ∨ a = p₁ ∨ a = p₂ := by
      have := hperm.subset (List.mem_cons_self a _)
      simpa using this
    have hb : b = p₀ ∨ b = p₁ ∨ b = p₂ := by
      have := hperm.subset (List.mem_cons_of_mem a (List.mem_cons_self b _))
      simpa using this
    have hc : c = p₀ ∨ c = p₁ ∨ c = p₂ := by
      have := hperm.subset
        (List.mem_cons_of_mem a (List.mem_cons_of_mem b (List.mem_cons_self c _)))
      simpa using this
    have cta : a.Header.Get "Content-Type" = "text/plain" := by
      rcases ha with h | h | h <;> subst h
      exacts [h₀.1, h₁.1, h₂.1]
    have ctb : b.Header.Get "Content-Type" = "text/plain" := by
      rcases hb with h | h | h <;> subst h
      exacts [h₀.1, h₁.1, h₂.1]
    have ctc : c.Header.Get "Content-Type" = "text/plain" := by
      rcases hc with h | h | h <;> subst h
      exacts [h₀.1, h₁.1, h₂.1]
    simp only [List.map_cons, List.map_nil]
    by_cases ea : a = p₀
    swap
    · have hcr : a.Header.Get "Content-Range" ≠ "bytes 0-99/500" := by
        rcases ha with h | h | h
        · exact absurd h ea
        · subst h; rw [c₁]; decide
        · subst h; rw [c₂]; decide
      obtain ⟨err, he⟩ := partLoop_wrong_range
        ["bytes 0-99/500", "bytes 200-299/500", "bytes 400-499/500"]
        [(sampleData.drop 0).take 100, (sampleData.drop 200).take 100,
          (sampleData.drop 400).take 100] 3 a [.ok b, .ok c] 0 _ (by norm_num) cta rfl hcr
      refine ⟨fun h => absurd (by injection h) ea, fun _ => ⟨err, by rw [he]; rfl⟩⟩
    subst ea
    rw [partLoop_pass _ _ 3 a _ 0 _ _ (by norm_num) cta rfl c₀ rfl r₀]
    by_cases eb : b = p₁
    swap
    · have hcr : b.Header.Get "Content-Range" ≠ "bytes 200-299/500" := by
        rcases hb with h | h | h
        · subst h; rw [c₀]; decide
        · exact absurd h eb
        · subst h; rw [c₂]; decide
      obtain ⟨err, he⟩ := partLoop_wrong_range
        ["bytes 0-99/500", "bytes 200-299/500", "bytes 400-499/500"]
        [(sampleData.drop 0).take 100, (sampleData.drop 200).take 100,
          (sampleData.drop 400).take 100] 3 b [.ok c] (0 + 1) _ (by norm_num) ctb rfl hcr
      refine ⟨fun h => absurd (by injection h with _ h; injection h) eb,
        fun _ => ⟨err, by rw [he]; rfl⟩⟩
    subst eb
    rw [partLoop_pass _ _ 3 b _ (0 + 1) _ _ (by norm_num) ctb rfl c₁ rfl r₁]
    by_cases ec : c = p₂
    swap
    · have hcr : c.Header.Get "Content-Range" ≠ "bytes 400-499/500" := by
        rcases hc with h | h | h
        · subst h; rw [c₀]; decide
        · subst h; rw [c₁]; decide
        · exact absurd h ec
      obtain ⟨err, he⟩ := partLoop_wrong_range
        ["bytes 0-99/500", "bytes 200-299/500", "bytes 400-499/500"]
        [(sampleData.drop 0).take 100, (sampleData.drop 200).take 100,
          (sampleData.drop 400).take 100] 3 c [] (0 + 1 + 1) _ (by norm_num) ctc rfl hcr
      refine ⟨fun h => absurd (by injection h with _ h; injection h with _ h; injection h) ec,
        fun _ => ⟨err, by rw [he]; rfl⟩⟩
    subst ec
    rw [partLoop_pass _ _ 3 c _ (0 + 1 + 1) _ _ (by norm_num) ctc rfl c₂ rfl r₂]
    exact ⟨fun _ => by simp [partLoop, finishLoop], fun h => absurd rfl h⟩

/-! ### Instances on the example targets -/

theorem fixedTarget_parse_plain (ans : Except Error Response) (parts : Reader) :
    (fixedTarget ans parts).ParseMediaType "text/plain" = .ok ("text/plain", []) := by
  simp [fixedTarget, exampleParseMediaType]

theorem multipartTarget_answers (parts : List Part) (w : World) (req : Request) :
    AnswersMultipart (multipartTarget parts) w req (parts.map .ok) := by
  refine ⟨multipartResponse parts, [("boundary", "x")], rfl, rfl, ?_, by decide, rfl⟩
  simp [multipartTarget, fixedTarget, exampleParseMediaType, multipartResponse, Header.Get,
    List.lookup]

theorem examplePart_correct (lo hi : Nat) (h : lo ≤ hi ∧ hi ≤ 500) :
    IsCorrectPart exampleData lo hi (examplePart lo hi) := by
  refine ⟨?_, ?_, rfl, ?_⟩
  · simp [examplePart, Header.Get, List.lookup]
  · simp [examplePart, Header.Get, List.lookup, exampleData_length]
  · rw [slice_of_le _ _ _ (by rw [exampleData_length]; exact h)]
    rfl

/-- C8 on a target that answers 416: the test passes. -/
theorem testIndexOutOfRange_iff_status_416_witness :
    testIndexOutOfRange (fixedTarget (.ok notSatisfiableResponse) []) exampleURL World.start
      = .ok none (World.start.sent (scenarioRequest "GET" exampleURL (some "bytes=700-800"))) := by
  have h := testIndexOutOfRange_iff_status_416 (fixedTarget (.ok notSatisfiableResponse) [])
    exampleURL World.start notSatisfiableResponse rfl rfl
  exact h.1.mpr rfl

/-- C2 on the conforming answer to `bytes=0-99` for `exampleData`: the test passes. -/
theorem testGetSingleAbsoluteRange_iff_witness :
    exampleData.length = 500 ∧ (rangeResponse 0 100).Body.err = none ∧
    testGetSingleAbsoluteRange (fixedTarget (.ok (rangeResponse 0 100)) []) exampleData
        exampleURL World.start
      = .ok none (World.start.sent (scenarioRequest "GET" exampleURL (some "bytes=0-99"))) := by
  obtain ⟨r, h, hiff⟩ := testGetSingleAbsoluteRange_iff
    (fixedTarget (.ok (rangeResponse 0 100)) []) exampleData exampleURL World.start
    (rangeResponse 0 100) exampleData_length rfl rfl rfl
  have hr : r = none := hiff.mpr ⟨rfl, rfl, ⟨[], fixedTarget_parse_plain _ _⟩, by decide,
    by simp [slice, exampleData_length, rangeResponse]⟩
  exact ⟨exampleData_length, rfl, by rw [h, hr]⟩

/-- C6 on the conforming answer for the last hundred bytes of `exampleData`: both tests
pass. -/
theorem testGetSingleRelativeRange_start_end_agree_witness :
    exampleData.length = 500 ∧
    testGetSingleRelativeRangeStart (fixedTarget (.ok (rangeResponse 400 500)) []) exampleData
        exampleURL World.start
      = .ok none (World.start.sent (scenarioRequest "GET" exampleURL (some "bytes=400-"))) ∧
    testGetSingleRelativeRangeEnd (fixedTarget (.ok (rangeResponse 400 500)) []) exampleData
        exampleURL World.start
      = .ok none (World.start.sent (scenarioRequest "GET" exampleURL (some "bytes=-100"))) := by
  obtain ⟨r, h₁, h₂, hiff⟩ := testGetSingleRelativeRange_start_end_agree
    (fixedTarget (.ok (rangeResponse 400 500)) []) exampleData exampleURL World.start
    World.start (rangeResponse 400 500) exampleData_length rfl rfl rfl
  have hs : slice exampleData 400 500 = some (rangeResponse 400 500).Body.data := by
    simp [slice, exampleData_length, rangeResponse]
  have hr : r = none := hiff.mpr ⟨rfl, rfl, ⟨[], fixedTarget_parse_plain _ _⟩, by decide,
    ⟨_, rfl, hs, by rw [exampleData_length]; exact hs⟩⟩
  exact ⟨exampleData_length, by rw [h₁, hr], by rw [h₂, hr]⟩

/-- C7 on a target that answers with the whole of `exampleData` and status 200: both
tests pass. -/
theorem testUnsupportedUnitType_same_as_without_range_witness :
    testGetAllDataWithoutRange (fixedTarget (.ok fullResponse) []) exampleData exampleURL
        World.start
      = .ok none (World.start.sent (scenarioRequest "GET" exampleURL none)) ∧
    testUnsupportedUnitType (fixedTarget (.ok fullResponse) []) exampleData exampleURL
        World.start
      = .ok none (World.start.sent (scenarioRequest "GET" exampleURL (some "centimeters=0-"))) := by
  obtain ⟨r, h₁, h₂, hiff⟩ := testUnsupportedUnitType_same_as_without_range
    (fixedTarget (.ok fullResponse) []) exampleData exampleURL World.start World.start
    (.ok fullResponse) rfl rfl rfl
  have hr : r = none := hiff.mpr ⟨fullResponse, rfl, rfl,
    by rw [exampleData_length]; rfl, ⟨[], fixedTarget_parse_plain _ _⟩,
    by simp [ReadAll, fullResponse]⟩
  exact ⟨by rw [h₁, hr], by rw [h₂, hr]⟩

/-- C4 on a target whose answer decodes to four parts: both validators return an
error. -/
theorem excess_parts_rejected_witness :
    exampleData.length = 500 ∧
    (∃ err, testGetMultipleAbsoluteRanges (multipartTarget fourParts) exampleData exampleURL
        World.start
      = .ok (some err)
          (World.start.sent
            (scenarioRequest "GET" exampleURL (some "bytes=0-99,200-299,400-499")))) ∧
    (∃ err, testGetMultipleAbsoluteAndRelativeRanges (multipartTarget fourParts) exampleData
        exampleURL World.start
      = .ok (some err)
          (World.start.sent (scenarioRequest "GET" exampleURL (some "bytes=0-99,-100")))) := by
  have h := excess_parts_rejected (multipartTarget fourParts) exampleData exampleURL
    World.start fourParts [] exampleData_length rfl
  have hans : ∀ req, AnswersMultipart (multipartTarget fourParts) World.start req
      (fourParts.map .ok ++ []) := by
    intro req
    rw [List.append_nil]
    exact multipartTarget_answers _ _ _
  obtain ⟨e₃, h₃, _⟩ := h.1 (hans _) (by decide)
  obtain ⟨e₂, h₂, _⟩ := h.2 (hans _) (by decide)
  exact ⟨exampleData_length, ⟨e₃, h₃⟩, ⟨e₂, h₂⟩⟩

/-- C3 on a target whose answer decodes to the three correct parts in request order: the
test passes. -/
theorem testGetMultipleAbsoluteRanges_order_witness :
    exampleData.length = 500 ∧ threeParts.Perm threeParts ∧
    testGetMultipleAbsoluteRanges (multipartTarget threeParts) exampleData exampleURL
        World.start
      = .ok none
          (World.start.sent
            (scenarioRequest "GET" exampleURL (some "bytes=0-99,200-299,400-499"))) := by
  have h := testGetMultipleAbsoluteRanges_order (multipartTarget threeParts) exampleData
    exampleURL World.start (examplePart 0 100) (examplePart 200 300) (examplePart 400 500)
    threeParts exampleData_length rfl (examplePart_correct _ _ (by omega))
    (examplePart_correct _ _ (by omega)) (examplePart_correct _ _ (by omega))
    (List.Perm.refl _) (multipartTarget_answers _ _ _)
  exact ⟨exampleData_length, List.Perm.refl _, h.1 rfl⟩

/-- C1, evaluated where it fails: a 206 `multipart/byteranges` response that carries only
the first of the three requested parts, and one that carries no part at all, both make
`testGetMultipleAbsoluteRanges` return no error. -/
theorem testGetMultipleAbsoluteRanges_accepts_missing_parts :
    testGetMultipleAbsoluteRanges (multipartTarget [examplePart 0 100]) exampleData exampleURL
        World.start
      = .ok none
          (World.start.sent
            (scenarioRequest "GET" exampleURL (some "bytes=0-99,200-299,400-499"))) ∧
    testGetMultipleAbsoluteRanges (multipartTarget []) exampleData exampleURL World.start
      = .ok none
          (World.start.sent
            (scenarioRequest "GET" exampleURL (some "bytes=0-99,200-299,400-499"))) := by
  constructor
  · rw [absoluteRanges_of_answer _ _ _ _ _ exampleData_length rfl
      (multipartTarget_answers _ _ _)]
    have hp := examplePart_correct 0 100 (by omega)
    have hr := IsCorrectPart.reads _ _ _ _ hp (by rw [exampleData_length]; omega)
    rw [Nat.sub_zero] at hr
    have hc : (examplePart 0 100).Header.Get "Content-Range" = "bytes 0-99/500" := by
      rw [hp.2.1, exampleData_length]
      decide
    simp only [List.map_cons, List.map_nil]
    rw [partLoop_pass _ _ 3 (examplePart 0 100) _ 0 "bytes 0-99/500"
      ((exampleData.drop 0).take 100) (by norm_num) hp.1 rfl hc (by simp) hr]
    simp [partLoop, finishLoop]
  · rw [absoluteRanges_of_answer _ _ _ _ _ exampleData_length rfl
      (multipartTarget_answers _ _ _)]
    simp [partLoop, finishLoop]

/-! ### Every test sends one request and touches nothing else -/

theorem testHEADRequest_frame (env : Env) (sampleData : List UInt8) (url : String) (w : World) :
    testHEADRequest env sampleData url w
      = .ok (verdictOf (testHEADRequest env sampleData url ⟨w.requests, "", ""⟩))
          ⟨w.requests ++ (if env.parseURL url = none then [(scenarioRequest "HEAD" url none)] else []),
            w.stdout, w.stderr⟩ := by
  rcases hu : env.parseURL url with _ | e
  swap
  · simp [testHEADRequest, NewRequest, hu, verdictOf]
  rw [scenarioRequest_plain]
  rcases hr : env.respond w.requests
      { Method := "HEAD", URL := url, Header := (Header.Add ⟨[]⟩ "User-Agent" "rangetest/1.0") } with e | resp
  · simp [testHEADRequest, NewRequest, hu, Do, hr, verdictOf]
  by_cases h1 : resp.StatusCode = 200
  swap
  · simp [testHEADRequest, NewRequest, hu, Do, hr, verdictOf, h1]
  by_cases h2 : resp.ContentLength = (sampleData.length : Int)
  swap
  · simp [testHEADRequest, NewRequest, hu, Do, hr, verdictOf, h1, h2]
  rcases h3 : env.ParseMediaType (resp.Header.Get "Content-Type") with e | ⟨ct, params⟩
  · simp [testHEADRequest, NewRequest, hu, Do, hr, verdictOf, h1, h2, h3]
  by_cases h4 : ct = "text/plain"
  swap
  · simp [testHEADRequest, NewRequest, hu, Do, hr, verdictOf, h1, h2, h3, h4]
  by_cases h5 : resp.Header.Get "Accept-Ranges" = "bytes"
  swap
  · simp [testHEADRequest, NewRequest, hu, Do, hr, verdictOf, h1, h2, h3, h4, h5]
  simp [testHEADRequest, NewRequest, hu, Do, hr, verdictOf, h1, h2, h3, h4, h5]

theorem testGetAllDataWithoutRange_frame (env : Env) (sampleData : List UInt8) (url : String) (w : World) :
    testGetAllDataWithoutRange env sampleData url w
      = .ok (verdictOf (testGetAllDataWithoutRange env sampleData url ⟨w.requests, "", ""⟩))
          ⟨w.requests ++ (if env.parseURL url = none then [(scenarioRequest "GET" url none)] else []),
            w.stdout, w.stderr⟩ := by
  rcases hu : env.parseURL url with _ | e
  swap
  · simp [testGetAllDataWithoutRange, NewRequest, hu, verdictOf]
  rw [scenarioRequest_plain]
  rcases hr : env.respond w.requests
      { Method := "GET", URL := url, Header := (Header.Add ⟨[]⟩ "User-Agent" "rangetest/1.0") } with e | resp
  · simp [testGetAllDataWithoutRange, NewRequest, hu, Do, hr, verdictOf]
  by_cases h1 : resp.StatusCode = 200
  swap
  · simp [testGetAllDataWithoutRange, NewRequest, hu, Do, hr, verdictOf, h1]
  by_cases h2 : resp.ContentLength = (sampleData.length : Int)
  swap
  · simp [testGetAllDataWithoutRange, NewRequest, hu, Do, hr, verdictOf, h1, h2]
  rcases h3 : env.ParseMediaType (resp.Header.Get "Content-Type") with e | ⟨ct, params⟩
  · simp [testGetAllDataWithoutRange, NewRequest, hu, Do, hr, verdictOf, h1, h2, h3]
  by_cases h4 : ct = "text/plain"
  swap
  · simp [testGetAllDataWithoutRange, NewRequest, hu, Do, hr, verdictOf, h1, h2, h3, h4]
  rcases h5 : ReadAll resp.Body with e | respData
  · simp [testGetAllDataWithoutRange, NewRequest, hu, Do, hr, verdictOf, h1, h2, h3, h4, h5]
  by_cases h6 : respData.length = sampleData.length
  swap
  · simp [testGetAllDataWithoutRange, NewRequest, hu, Do, hr, verdictOf, h1, h2, h3, h4, h5, h6]
  by_cases h7 : respData = sampleData
  swap
  · simp [testGetAllDataWithoutRange, NewRequest, hu, Do, hr, verdictOf, h1, h2, h3, h4, h5, h6, h7]
  simp [testGetAllDataWithoutRange, NewRequest, hu, Do, hr, verdictOf, h1, h2, h3, h4, h5, h6, h7]

theorem testGetAllDataWithRange_frame (env : Env) (sampleData : List UInt8) (url : String) (w : World) :
    testGetAllDataWithRange env sampleData url w
      = .ok (verdictOf (testGetAllDataWithRange env sampleData url ⟨w.requests, "", ""⟩))
          ⟨w.requests ++ (if env.parseURL url = none then [(scenarioRequest "GET" url (some "bytes=0-"))] else []),
            w.stdout, w.stderr⟩ := by
  rcases hu : env.parseURL url with _ | e
  swap
  · simp [testGetAllDataWithRange, NewRequest, hu, verdictOf]
  rw [scenarioRequest_range]
  rcases hr : env.respond w.requests
      { Method := "GET", URL := url, Header := (Header.Add (Header.Add ⟨[]⟩ "User-Agent" "rangetest/1.0") "Range" "bytes=0-") } with e | resp
  · simp [testGetAllDataWithRange, NewRequest, hu, Do, hr, verdictOf]
  by_cases h1 : resp.StatusCode = 206
  swap
  · simp [testGetAllDataWithRange, NewRequest, hu, Do, hr, verdictOf, h1]
  by_cases h2 : resp.ContentLength = (sampleData.length : Int)
  swap
  · simp [testGetAllDataWithRange, NewRequest, hu, Do, hr, verdictOf, h1, h2]
  rcases h3 : env.ParseMediaType (resp.Header.Get "Content-Type") with e | ⟨ct, params⟩
  · simp [testGetAllDataWithRange, NewRequest, hu, Do, hr, verdictOf, h1, h2, h3]
  by_cases h4 : ct = "text/plain"
  swap
  · simp [testGetAllDataWithRange, NewRequest, hu, Do, hr, verdictOf, h1, h2, h3, h4]
  by_cases h5 : resp.Header.Get "Content-Range" = "bytes 0-499/500"
  swap
  · simp [testGetAllDataWithRange, NewRequest, hu, Do, hr, verdictOf, h1, h2, h3, h4, h5]
  rcases h6 : ReadAll resp.Body with e | respData
  · simp [testGetAllDataWithRange, NewRequest, hu, Do, hr, verdictOf, h1, h2, h3, h4, h5, h6]
  by_cases h7 : respData.length = sampleData.length
  swap
  · simp [testGetAllDataWithRange, NewRequest, hu, Do, hr, verdictOf, h1, h2, h3, h4, h5, h6, h7]
  by_cases h8 : respData = sampleData
  swap
  · simp [testGetAllDataWithRange, NewRequest, hu, Do, hr, verdictOf, h1, h2, h3, h4, h5, h6, h7,
      h8]
  simp [testGetAllDataWithRange, NewRequest, hu, Do, hr, verdictOf, h1, h2, h3, h4, h5, h6, h7, h8]

theorem testGetSingleAbsoluteRange_frame (env : Env) (sampleData : List UInt8) (url : String) (w : World) (hlen : sampleData.length = 500) :
    testGetSingleAbsoluteRange env sampleData url w
      = .ok (verdictOf (testGetSingleAbsoluteRange env sampleData url ⟨w.requests, "", ""⟩))
          ⟨w.requests ++ (if env.parseURL url = none then [(scenarioRequest "GET" url (some "bytes=0-99"))] else []),
            w.stdout, w.stderr⟩ := by
  rcases hu : env.parseURL url with _ | e
  swap
  · simp [testGetSingleAbsoluteRange, NewRequest, hu, verdictOf]
  obtain ⟨d0, hs0⟩ : ∃ d, slice sampleData 0 100 = some d :=
    ⟨_, slice_of_le _ _ _ (by omega)⟩
  rw [scenarioRequest_range]
  rcases hr : env.respond w.requests
      { Method := "GET", URL := url, Header := (Header.Add (Header.Add ⟨[]⟩ "User-Agent" "rangetest/1.0") "Range" "bytes=0-99") } with e | resp
  · simp [testGetSingleAbsoluteRange, NewRequest, hu, Do, hr, verdictOf, hs0]
  by_cases h1 : resp.StatusCode = 206
  swap
  · simp [testGetSingleAbsoluteRange, NewRequest, hu, Do, hr, verdictOf, hs0, h1]
  by_cases h2 : resp.ContentLength = 100
  swap
  · simp [testGetSingleAbsoluteRange, NewRequest, hu, Do, hr, verdictOf, hs0, h1, h2]
  rcases h3 : env.ParseMediaType (resp.Header.Get "Content-Type") with e | ⟨ct, params⟩
  · simp [testGetSingleAbsoluteRange, NewRequest, hu, Do, hr, verdictOf, hs0, h1, h2, h3]
  by_cases h4 : ct = "text/plain"
  swap
  · simp [testGetSingleAbsoluteRange, NewRequest, hu, Do, hr, verdictOf, hs0, h1, h2, h3, h4]
  by_cases h5 : resp.Header.Get "Content-Range" = "bytes 0-99/500"
  swap
  · simp [testGetSingleAbsoluteRange, NewRequest, hu, Do, hr, verdictOf, hs0, h1, h2, h3, h4, h5]
  rcases h6 : ReadAll resp.Body with e | respData
  · simp [testGetSingleAbsoluteRange, NewRequest, hu, Do, hr, verdictOf, hs0, h1, h2, h3, h4, h5,
      h6]
  by_cases h7 : respData.length = 100
  swap
  · simp [testGetSingleAbsoluteRange, NewRequest, hu, Do, hr, verdictOf, hs0, h1, h2, h3, h4, h5,
      h6, h7]
  by_cases h8 : respData = d0
  swap
  · simp [testGetSingleAbsoluteRange, NewRequest, hu, Do, hr, verdictOf, hs0, h1, h2, h3, h4, h5,
      h6, h7, h8]
  subst h8
  simp [testGetSingleAbsoluteRange, NewRequest, hu, Do, hr, verdictOf, hs0, h1, h2, h3, h4, h5,
      h6, h7]

theorem testGetSingleRelativeRangeStart_frame (env : Env) (sampleData : List UInt8) (url : String) (w : World) (hlen : sampleData.length = 500) :
    testGetSingleRelativeRangeStart env sampleData url w
      = .ok (verdictOf (testGetSingleRelativeRangeStart env sampleData url ⟨w.requests, "", ""⟩))
          ⟨w.requests ++ (if env.parseURL url = none then [(scenarioRequest "GET" url (some "bytes=400-"))] else []),
            w.stdout, w.stderr⟩ := by
  rcases hu : env.parseURL url with _ | e
  swap
  · simp [testGetSingleRelativeRangeStart, NewRequest, hu, verdictOf]
  obtain ⟨d0, hs0⟩ : ∃ d, slice sampleData 400 500 = some d :=
    ⟨_, slice_of_le _ _ _ (by omega)⟩
  rw [scenarioRequest_range]
  rcases hr : env.respond w.requests
      { Method := "GET", URL := url, Header := (Header.Add (Header.Add ⟨[]⟩ "User-Agent" "rangetest/1.0") "Range" "bytes=400-") } with e | resp
  · simp [testGetSingleRelativeRangeStart, NewRequest, hu, Do, hr, verdictOf, hs0]
  by_cases h1 : resp.StatusCode = 206
  swap
  · simp [testGetSingleRelativeRangeStart, NewRequest, hu, Do, hr, verdictOf, hs0, h1]
  by_cases h2 : resp.ContentLength = 100
  swap
  · simp [testGetSingleRelativeRangeStart, NewRequest, hu, Do, hr, verdictOf, hs0, h1, h2]
  rcases h3 : env.ParseMediaType (resp.Header.Get "Content-Type") with e | ⟨ct, params⟩
  · simp [testGetSingleRelativeRangeStart, NewRequest, hu, Do, hr, verdictOf, hs0, h1, h2, h3]
  by_cases h4 : ct = "text/plain"
  swap
  · simp [testGetSingleRelativeRangeStart, NewRequest, hu, Do, hr, verdictOf, hs0, h1, h2, h3, h4]
  by_cases h5 : resp.Header.Get "Content-Range" = "bytes 400-499/500"
  swap
  · simp [testGetSingleRelativeRangeStart, NewRequest, hu, Do, hr, verdictOf, hs0, h1, h2, h3, h4,
      h5]
  rcases h6 : ReadAll resp.Body with e | respData
  · simp [testGetSingleRelativeRangeStart, NewRequest, hu, Do, hr, verdictOf, hs0, h1, h2, h3, h4,
      h5, h6]
  by_cases h7 : respData.length = 100
  swap
  · simp [testGetSingleRelativeRangeStart, NewRequest, hu, Do, hr, verdictOf, hs0, h1, h2, h3, h4,
      h5, h6, h7]
  by_cases h8 : respData = d0
  swap
  · simp [testGetSingleRelativeRangeStart, NewRequest, hu, Do, hr, verdictOf, hs0, h1, h2, h3, h4,
      h5, h6, h7, h8]
  subst h8
  simp [testGetSingleRelativeRangeStart, NewRequest, hu, Do, hr, verdictOf, hs0, h1, h2, h3, h4,
      h5, h6, h7]

theorem testGetSingleRelativeRangeEnd_frame (env : Env) (sampleData : List UInt8) (url : String) (w : World) (hlen : sampleData.length = 500) :
    testGetSingleRelativeRangeEnd env sampleData url w
      = .ok (verdictOf (testGetSingleRelativeRangeEnd env sampleData url ⟨w.requests, "", ""⟩))
          ⟨w.requests ++ (if env.parseURL url = none then [(scenarioRequest "GET" url (some "bytes=-100"))] else []),
            w.stdout, w.stderr⟩ := by
  rcases hu : env.parseURL url with _ | e
  swap
  · simp [testGetSingleRelativeRangeEnd, NewRequest, hu, verdictOf]
  obtain ⟨d0, hs0⟩ : ∃ d, slice sampleData 400 500 = some d :=
    ⟨_, slice_of_le _ _ _ (by omega)⟩
  rw [scenarioRequest_range]
  rcases hr : env.respond w.requests
      { Method := "GET", URL := url, Header := (Header.Add (Header.Add ⟨[]⟩ "User-Agent" "rangetest/1.0") "Range" "bytes=-100") } with e | resp
  · simp [testGetSingleRelativeRangeEnd, NewRequest, hu, Do, hr, verdictOf, hs0]
  by_cases h1 : resp.StatusCode = 206
  swap
  · simp [testGetSingleRelativeRangeEnd, NewRequest, hu, Do, hr, verdictOf, hs0, h1]
  by_cases h2 : resp.ContentLength = 100
  swap
  · simp [testGetSingleRelativeRangeEnd, NewRequest, hu, Do, hr, verdictOf, hs0, h1, h2]
  rcases h3 : env.ParseMediaType (resp.Header.Get "Content-Type") with e | ⟨ct, params⟩
  · simp [testGetSingleRelativeRangeEnd, NewRequest, hu, Do, hr, verdictOf, hs0, h1, h2, h3]
  by_cases h4 : ct = "text/plain"
  swap
  · simp [testGetSingleRelativeRangeEnd, NewRequest, hu, Do, hr, verdictOf, hs0, h1, h2, h3, h4]
  by_cases h5 : resp.Header.Get "Content-Range" = "bytes 400-499/500"
  swap
  · simp [testGetSingleRelativeRangeEnd, NewRequest, hu, Do, hr, verdictOf, hs0, h1, h2, h3, h4, h5]
  rcases h6 : ReadAll resp.Body with e | respData
  · simp [testGetSingleRelativeRangeEnd, NewRequest, hu, Do, hr, verdictOf, hs0, h1, h2, h3, h4,
      h5, h6]
  by_cases h7 : respData.length = 100
  swap
  · simp [testGetSingleRelativeRangeEnd, NewRequest, hu, Do, hr, verdictOf, hs0, h1, h2, h3, h4,
      h5, h6, h7]
  by_cases h8 : respData = d0
  swap
  · simp [testGetSingleRelativeRangeEnd, NewRequest, hu, Do, hr, verdictOf, hs0, h1, h2, h3, h4,
      h5, h6, h7, h8]
  subst h8
  simp [testGetSingleRelativeRangeEnd, NewRequest, hu, Do, hr, verdictOf, hs0, h1, h2, h3, h4, h5,
      h6, h7]

theorem testGetMultipleAbsoluteRanges_frame (env : Env) (sampleData : List UInt8) (url : String) (w : World) (hlen : sampleData.length = 500) :
    testGetMultipleAbsoluteRanges env sampleData url w
      = .ok (verdictOf (testGetMultipleAbsoluteRanges env sampleData url ⟨w.requests, "", ""⟩))
          ⟨w.requests ++ (if env.parseURL url = none then [(scenarioRequest "GET" url (some "bytes=0-99,200-299,400-499"))] else []),
            w.stdout, w.stderr⟩ := by
  rcases hu : env.parseURL url with _ | e
  swap
  · simp [testGetMultipleAbsoluteRanges, NewRequest, hu, verdictOf]
  obtain ⟨d0, hs0⟩ : ∃ d, slice sampleData 0 100 = some d :=
    ⟨_, slice_of_le _ _ _ (by omega)⟩
  obtain ⟨d1, hs1⟩ : ∃ d, slice sampleData 200 300 = some d :=
    ⟨_, slice_of_le _ _ _ (by omega)⟩
  obtain ⟨d2, hs2⟩ : ∃ d, slice sampleData 400 500 = some d :=
    ⟨_, slice_of_le _ _ _ (by omega)⟩
  rw [scenarioRequest_range]
  rcases hr : env.respond w.requests
      { Method := "GET", URL := url, Header := (Header.Add (Header.Add ⟨[]⟩ "User-Agent" "rangetest/1.0") "Range" "bytes=0-99,200-299,400-499") } with e | resp
  · simp [testGetMultipleAbsoluteRanges, NewRequest, hu, Do, hr, verdictOf, hs0, hs1, hs2]
  by_cases h1 : resp.StatusCode = 206
  swap
  · simp [testGetMultipleAbsoluteRanges, NewRequest, hu, Do, hr, verdictOf, hs0, hs1, hs2, h1]
  rcases h2 : env.ParseMediaType (resp.Header.Get "Content-Type") with e | ⟨ct, params⟩
  · simp [testGetMultipleAbsoluteRanges, NewRequest, hu, Do, hr, verdictOf, hs0, hs1, hs2, h1, h2]
  by_cases h3 : ct = "multipart/byteranges"
  swap
  · simp [testGetMultipleAbsoluteRanges, NewRequest, hu, Do, hr, verdictOf, hs0, hs1, hs2, h1, h2,
      h3]
  by_cases h4 : mapIndex params "boundary" = ""
  · simp [testGetMultipleAbsoluteRanges, NewRequest, hu, Do, hr, verdictOf, hs0, hs1, hs2, h1, h2,
      h3, h4]
  obtain ⟨r, hpl⟩ := Option.ne_none_iff_exists'.mp (partLoop_three_ne_none
    [d0, d1, d2] rfl
    (env.NewReader resp.Body (mapIndex params "boundary")) 0)
  simp [testGetMultipleAbsoluteRanges, NewRequest, hu, Do, hr, verdictOf, hs0, hs1, hs2, h1, h2,
      h3, h4, hpl, finishLoop]

theorem testGetMultipleAbsoluteAndRelativeRanges_frame (env : Env) (sampleData : List UInt8) (url : String) (w : World) (hlen : sampleData.length = 500) :
    testGetMultipleAbsoluteAndRelativeRanges env sampleData url w
      = .ok (verdictOf (testGetMultipleAbsoluteAndRelativeRanges env sampleData url ⟨w.requests, "", ""⟩))
          ⟨w.requests ++ (if env.parseURL url = none then [(scenarioRequest "GET" url (some "bytes=0-99,-100"))] else []),
            w.stdout, w.stderr⟩ := by
  rcases hu : env.parseURL url with _ | e
  swap
  · simp [testGetMultipleAbsoluteAndRelativeRanges, NewRequest, hu, verdictOf]
  obtain ⟨d0, hs0⟩ : ∃ d, slice sampleData 0 100 = some d :=
    ⟨_, slice_of_le _ _ _ (by omega)⟩
  obtain ⟨d1, hs1⟩ : ∃ d, slice sampleData 400 500 = some d :=
    ⟨_, slice_of_le _ _ _ (by omega)⟩
  rw [scenarioRequest_range]
  rcases hr : env.respond w.requests
      { Method := "GET", URL := url, Header := (Header.Add (Header.Add ⟨[]⟩ "User-Agent" "rangetest/1.0") "Range" "bytes=0-99,-100") } with e | resp
  · simp [testGetMultipleAbsoluteAndRelativeRanges, NewRequest, hu, Do, hr, verdictOf, hs0, hs1]
  by_cases h1 : resp.StatusCode = 206
  swap
  · simp [testGetMultipleAbsoluteAndRelativeRanges, NewRequest, hu, Do, hr, verdictOf, hs0, hs1, h1]
  rcases h2 : env.ParseMediaType (resp.Header.Get "Content-Type") with e | ⟨ct, params⟩
  · simp [testGetMultipleAbsoluteAndRelativeRanges, NewRequest, hu, Do, hr, verdictOf, hs0, hs1,
      h1, h2]
  by_cases h3 : ct = "multipart/byteranges"
  swap
  · simp [testGetMultipleAbsoluteAndRelativeRanges, NewRequest, hu, Do, hr, verdictOf, hs0, hs1,
      h1, h2, h3]
  by_cases h4 : mapIndex params "boundary" = ""
  · simp [testGetMultipleAbsoluteAndRelativeRanges, NewRequest, hu, Do, hr, verdictOf, hs0, hs1,
      h1, h2, h3, h4]
  obtain ⟨r, hpl⟩ := Option.ne_none_iff_exists'.mp (partLoop_two_ne_none
    [d0, d1] rfl
    (env.NewReader resp.Body (mapIndex params "boundary")) 0)
  simp [testGetMultipleAbsoluteAndRelativeRanges, NewRequest, hu, Do, hr, verdictOf, hs0, hs1, h1,
      h2, h3, h4, hpl, finishLoop]

theorem testUnsupportedUnitType_frame (env : Env) (sampleData : List UInt8) (url : String) (w : World) :
    testUnsupportedUnitType env sampleData url w
      = .ok (verdictOf (testUnsupportedUnitType env sampleData url ⟨w.requests, "", ""⟩))
          ⟨w.requests ++ (if env.parseURL url = none then [(scenarioRequest "GET" url (some "centimeters=0-"))] else []),
            w.stdout, w.stderr⟩ := by
  rcases hu : env.parseURL url with _ | e
  swap
  · simp [testUnsupportedUnitType, NewRequest, hu, verdictOf]
  rw [scenarioRequest_range]
  rcases hr : env.respond w.requests
      { Method := "GET", URL := url, Header := (Header.Add (Header.Add ⟨[]⟩ "User-Agent" "rangetest/1.0") "Range" "centimeters=0-") } with e | resp
  · simp [testUnsupportedUnitType, NewRequest, hu, Do, hr, verdictOf]
  by_cases h1 : resp.StatusCode = 200
  swap
  · simp [testUnsupportedUnitType, NewRequest, hu, Do, hr, verdictOf, h1]
  by_cases h2 : resp.ContentLength = (sampleData.length : Int)
  swap
  · simp [testUnsupportedUnitType, NewRequest, hu, Do, hr, verdictOf, h1, h2]
  rcases h3 : env.ParseMediaType (resp.Header.Get "Content-Type") with e | ⟨ct, params⟩
  · simp [testUnsupportedUnitType, NewRequest, hu, Do, hr, verdictOf, h1, h2, h3]
  by_cases h4 : ct = "text/plain"
  swap
  · simp [testUnsupportedUnitType, NewRequest, hu, Do, hr, verdictOf, h1, h2, h3, h4]
  rcases h5 : ReadAll resp.Body with e | respData
  · simp [testUnsupportedUnitType, NewRequest, hu, Do, hr, verdictOf, h1, h2, h3, h4, h5]
  by_cases h6 : respData.length = sampleData.length
  swap
  · simp [testUnsupportedUnitType, NewRequest, hu, Do, hr, verdictOf, h1, h2, h3, h4, h5, h6]
  by_cases h7 : respData = sampleData
  swap
  · simp [testUnsupportedUnitType, NewRequest, hu, Do, hr, verdictOf, h1, h2, h3, h4, h5, h6, h7]
  simp [testUnsupportedUnitType, NewRequest, hu, Do, hr, verdictOf, h1, h2, h3, h4, h5, h6, h7]

theorem testIndexOutOfRange_frame (env : Env) (url : String) (w : World) :
    testIndexOutOfRange env url w
      = .ok (verdictOf (testIndexOutOfRange env url ⟨w.requests, "", ""⟩))
          ⟨w.requests ++ (if env.parseURL url = none then [(scenarioRequest "GET" url (some "bytes=700-800"))] else []),
            w.stdout, w.stderr⟩ := by
  rcases hu : env.parseURL url with _ | e
  swap
  · simp [testIndexOutOfRange, NewRequest, hu, verdictOf]
  rw [scenarioRequest_range]
  rcases hr : env.respond w.requests
      { Method := "GET", URL := url, Header := (Header.Add (Header.Add ⟨[]⟩ "User-Agent" "rangetest/1.0") "Range" "bytes=700-800") } with e | resp
  · simp [testIndexOutOfRange, NewRequest, hu, Do, hr, verdictOf]
  by_cases h1 : resp.StatusCode = 416
  swap
  · simp [testIndexOutOfRange, NewRequest, hu, Do, hr, verdictOf, h1]
  simp [testIndexOutOfRange, NewRequest, hu, Do, hr, verdictOf, h1]

/-! ### The orchestrator -/

theorem runTest_of_ok (url name : String) (t : String → World → Result (Option Error))
    (w w' : World) (r : Option Error) (h : t url w = .ok r w') :
    runTest url name t w = .ok () ⟨w'.requests, w'.stdout ++ report name r, w'.stderr⟩ := by
  cases r <;> simp [runTest, h, report]

theorem performTestSuite_eq (env : Env) (sampleData : List UInt8) (url : String) (w : World)
    (hlen : sampleData.length = 500) :
    performTestSuite env sampleData url w
      = .ok () ⟨w.requests ++ sentRequests env url,
          (List.zipWith report catalogNames
            ((isolatedRuns env sampleData url w.requests).map verdictOf)).foldl (· ++ ·) w.stdout,
          w.stderr⟩ := by
  simp only [performTestSuite]
  rw [runTest_of_ok _ _ _ _ _ _ (testHEADRequest_frame env sampleData url w)]
  simp only [Result.andThen]
  rw [runTest_of_ok _ _ _ _ _ _ (testGetAllDataWithoutRange_frame env sampleData url _)]
  simp only [Result.andThen]
  rw [runTest_of_ok _ _ _ _ _ _ (testGetAllDataWithRange_frame env sampleData url _)]
  simp only [Result.andThen]
  rw [runTest_of_ok _ _ _ _ _ _ (testGetSingleAbsoluteRange_frame env sampleData url _ hlen)]
  simp only [Result.andThen]
  rw [runTest_of_ok _ _ _ _ _ _
    (testGetSingleRelativeRangeStart_frame env sampleData url _ hlen)]
  simp only [Result.andThen]
  rw [runTest_of_ok _ _ _ _ _ _ (testGetSingleRelativeRangeEnd_frame env sampleData url _ hlen)]
  simp only [Result.andThen]
  rw [runTest_of_ok _ _ _ _ _ _ (testGetMultipleAbsoluteRanges_frame env sampleData url _ hlen)]
  simp only [Result.andThen]
  rw [runTest_of_ok _ _ _ _ _ _
    (testGetMultipleAbsoluteAndRelativeRanges_frame env sampleData url _ hlen)]
  simp only [Result.andThen]
  rw [runTest_of_ok _ _ _ _ _ _ (testUnsupportedUnitType_frame env sampleData url _)]
  simp only [Result.andThen]
  rw [runTest_of_ok _ _ _ _ _ _ (testIndexOutOfRange_frame env url _)]
  rcases hu : env.parseURL url with _ | e <;>
    simp [sentRequests, catalogRequests, hu, isolatedRuns, catalogNames, List.zipWith]

theorem isolatedRuns_ok (env : Env) (sampleData : List UInt8) (url : String)
    (reqs : List Request) (hlen : sampleData.length = 500) :
    ∀ run ∈ isolatedRuns env sampleData url reqs, ∃ r w', run = Result.ok r w' := by
  intro run hrun
  simp only [isolatedRuns, List.mem_cons, List.mem_singleton, List.not_mem_nil, or_false]
    at hrun
  rcases hrun with h | h | h | h | h | h | h | h | h | h <;> subst h
  · exact ⟨_, _, testHEADRequest_frame env sampleData url _⟩
  · exact ⟨_, _, testGetAllDataWithoutRange_frame env sampleData url _⟩
  · exact ⟨_, _, testGetAllDataWithRange_frame env sampleData url _⟩
  · exact ⟨_, _, testGetSingleAbsoluteRange_frame env sampleData url _ hlen⟩
  · exact ⟨_, _, testGetSingleRelativeRangeStart_frame env sampleData url _ hlen⟩
  · exact ⟨_, _, testGetSingleRelativeRangeEnd_frame env sampleData url _ hlen⟩
  · exact ⟨_, _, testGetMultipleAbsoluteRanges_frame env sampleData url _ hlen⟩
  · exact ⟨_, _, testGetMultipleAbsoluteAndRelativeRanges_frame env sampleData url _ hlen⟩
  · exact ⟨_, _, testUnsupportedUnitType_frame env sampleData url _⟩
  · exact ⟨_, _, testIndexOutOfRange_frame env url _⟩

/-- C9: on the 500-byte dataset, whatever the target answers, `performTestSuite` returns
normally after sending the ten catalog requests once each, in catalog order (none at all
when the URL is rejected by `http.NewRequest`), and after printing ten reports, one per
scenario in catalog order; the report of scenario `i` is the pass line or the fail line
with the detail of what scenario `i` returns when it is run by itself after the same
requests, so no outcome of an earlier scenario skips or changes a later one. -/
theorem performTestSuite_runs_every_scenario (env : Env) (sampleData : List UInt8)
    (url : String) (w : World) (hlen : sampleData.length = 500) :
    performTestSuite env sampleData url w
      = .ok () ⟨w.requests ++ sentRequests env url,
          (List.zipWith report catalogNames
            ((isolatedRuns env sampleData url w.requests).map verdictOf)).foldl (· ++ ·) w.stdout,
          w.stderr⟩ ∧
    (List.zipWith report catalogNames
      ((isolatedRuns env sampleData url w.requests).map verdictOf)).length = 10 ∧
    (env.parseURL url = none → sentRequests env url = catalogRequests url) ∧
    ∀ run ∈ isolatedRuns env sampleData url w.requests, ∃ r w', run = Result.ok r w' := by
  refine ⟨performTestSuite_eq env sampleData url w hlen, ?_, ?_,
    isolatedRuns_ok env sampleData url w.requests hlen⟩
  · simp [isolatedRuns, catalogNames]
  · intro hu
    simp [sentRequests, hu]

/-- C9 on a target that answers every request with the whole of `exampleData`: the run
returns normally and has sent exactly the ten catalog requests. -/
theorem performTestSuite_runs_every_scenario_witness :
    exampleData.length = 500 ∧
    ∃ out, performTestSuite (fixedTarget (.ok fullResponse) []) exampleData exampleURL
        World.start
      = .ok () ⟨catalogRequests exampleURL, out, ""⟩ := by
  have h := (performTestSuite_runs_every_scenario (fixedTarget (.ok fullResponse) [])
    exampleData exampleURL World.start exampleData_length).1
  have hs : sentRequests (fixedTarget (.ok fullResponse) []) exampleURL
      = catalogRequests exampleURL := by
    simp [sentRequests, fixedTarget]
  refine ⟨exampleData_length,
    (List.zipWith report catalogNames
      ((isolatedRuns (fixedTarget (.ok fullResponse) []) exampleData exampleURL
        World.start.requests).map verdictOf)).foldl (· ++ ·) World.start.stdout, ?_⟩
  rw [h, hs]
  simp [World.start]

/-! ### The command line -/

/-- The argument loop walks over well-formed `-u value` pairs and keeps the last value. -/
theorem argLoop_flagPairs (Args : List String) (w : World) (vs : List String) :
    ∀ (pre rest : List String) (url : String),
      argLoop Args (pre ++ (flagPairs vs ++ rest)) pre.length url w
        = argLoop Args (pre ++ (flagPairs vs ++ rest)) (pre.length + (flagPairs vs).length)
            (vs.getLast?.getD url) w := by
  induction vs with
  | nil => intro pre rest url; simp [flagPairs]
  | cons v vs ih =>
    intro pre rest url
    have hlist : pre ++ (flagPairs (v :: vs) ++ rest)
        = (pre ++ ["-u", v]) ++ (flagPairs vs ++ rest) := by
      simp [flagPairs]
    have hstep : argLoop Args (pre ++ (flagPairs (v :: vs) ++ rest)) pre.length url w
        = argLoop Args (pre ++ (flagPairs (v :: vs) ++ rest)) (pre.length + 1 + 1) v w := by
      rw [argLoop]
      simp [flagPairs, List.getElem_append_right]
    rw [hstep, hlist]
    have h := ih (pre ++ ["-u", v]) rest v
    simp only [List.length_append, List.length_cons, List.length_nil] at h
    rw [h]
    have hl : (v :: vs).getLast?.getD url = vs.getLast?.getD v := by
      cases vs with
      | nil => simp
      | cons b l =>
        rw [List.getLast?_cons_cons, List.getLast?_eq_getLast _ (List.cons_ne_nil _ _)]
        rfl
    simp only [flagPairs, List.length_cons, hl]
    congr 1
    omega

/-- Well-formed arguments `-u v₁ … -u vₙ`: the suite runs against the last value (against
the empty URL when there is no pair at all). -/
theorem main_flagPairs (env : Env) (sampleData : List UInt8) (prog : String)
    (vs : List String) (w : World) :
    main env sampleData (prog :: flagPairs vs) w
      = performTestSuite env sampleData (vs.getLast?.getD "") w := by
  have h := argLoop_flagPairs (prog :: flagPairs vs) w vs [] [] ""
  simp only [List.nil_append, List.append_nil, List.length_nil, Nat.zero_add] at h
  have hend : argLoop (prog :: flagPairs vs) (flagPairs vs) (flagPairs vs).length
      (vs.getLast?.getD "") w = .ok (vs.getLast?.getD "") w := by
    rw [argLoop]
    simp
  simp [main, h, hend, Result.andThen]

/-- An argument other than `-u` in flag position ends the program with status 1 after the
message and the usage line; nothing is sent. -/
theorem main_unknown_argument (env : Env) (sampleData : List UInt8) (prog a : String)
    (vs rest : List String) (w : World) (ha : a ≠ "-u") :
    main env sampleData (prog :: (flagPairs vs ++ a :: rest)) w
      = .exit 1 ⟨w.requests, w.stdout ++ usage prog,
          w.stderr ++ ("Unknown argument " ++ a ++ "\n")⟩ := by
  have h := argLoop_flagPairs (prog :: (flagPairs vs ++ a :: rest)) w vs [] (a :: rest) ""
  simp only [List.nil_append, List.length_nil, Nat.zero_add] at h
  have hend : argLoop (prog :: (flagPairs vs ++ a :: rest)) (flagPairs vs ++ a :: rest)
      (flagPairs vs).length (vs.getLast?.getD "") w
      = .exit 1 ⟨w.requests, w.stdout ++ usage prog,
          w.stderr ++ ("Unknown argument " ++ a ++ "\n")⟩ := by
    rw [argLoop]
    simp [List.getElem_append_right, ha, printHelpAndExit, usage]
  simp [main, h, hend, Result.andThen]

/-- A trailing `-u` without a value ends the program with status 1 after the message and
the usage line; nothing is sent. -/
theorem main_missing_value (env : Env) (sampleData : List UInt8) (prog : String)
    (vs : List String) (w : World) :
    main env sampleData (prog :: (flagPairs vs ++ ["-u"])) w
      = .exit 1 ⟨w.requests, w.stdout ++ usage prog,
          w.stderr ++ "Argument -u requires a value\n"⟩ := by
  have h := argLoop_flagPairs (prog :: (flagPairs vs ++ ["-u"])) w vs [] ["-u"] ""
  simp only [List.nil_append, List.length_nil, Nat.zero_add] at h
  have hend : argLoop (prog :: (flagPairs vs ++ ["-u"])) (flagPairs vs ++ ["-u"])
      (flagPairs vs).length (vs.getLast?.getD "") w
      = .exit 1 ⟨w.requests, w.stdout ++ usage prog,
          w.stderr ++ "Argument -u requires a value\n"⟩ := by
    rw [argLoop]
    simp [List.getElem_append_right, printHelpAndExit, usage]
  simp [main, h, hend, Result.andThen]

/-- C10, evaluated where it fails: started without any argument, `main` does not end with
a usage error; it runs the test suite against the empty URL. -/
theorem main_without_arguments_runs_suite (env : Env) (sampleData : List UInt8)
    (prog : String) (w : World) :
    main env sampleData [prog] w = performTestSuite env sampleData "" w := by
  simp [main, argLoop, Result.andThen]

end Rangetest
